import Mathlib

/-!
# cred-generator: events and participants over a document store

A shallow embedding of `main.go`.  Every HTTP handler becomes a function from
the store state and the request inputs to the response and the next store
state.

The document store (MongoDB through the official Go driver) is an external
collaborator of the program; it is embedded as two lists of documents in
natural (insertion) order together with the driver operations the handlers
call.  What the embedding takes from the driver and from the Go standard
library is written next to each definition:

* struct fields are written under their `bson` tag, and under the lower-cased
  field name when the field has no `bson` tag;
* a zero `_id` tagged `omitempty` is left out of an inserted document and the
  driver generates one; a non-zero `_id` is kept; `_id` is unique per
  collection (a second insert under a used `_id` is a duplicate-key error);
* a `time.Time` is written as a BSON datetime, a count of milliseconds;
* a document or an update statement of more than 16 MiB (`maxBsonObjectSize`)
  is refused, and so is an update that would make the stored document larger
  than that;
* `encoding/json` writes a nil slice as `null`.

The store is taken to be reachable: the only store errors that occur are the
ones the data decides, "no documents", "duplicate key" and "document too
large".  A handler that reports a store error writes `err.Error()`; the
embedding records which error it is, not the driver's text.
-/

namespace CredGenerator

/-! ## Identifiers -/

/-- `primitive.ObjectID`: twelve bytes, read as one big-endian number, which is
the order the store sorts `_id` by.  `0` is `primitive.NilObjectID`. -/
abbrev ObjectID := Nat

/-- `ObjectID.IsZero`. -/
def ObjectID.IsZero (id : ObjectID) : Bool := id == 0

/-- Value of one hexadecimal digit as `encoding/hex` reads it (both cases). -/
def fromHexChar (c : Char) : Option Nat :=
  if '0'.toNat ≤ c.toNat ∧ c.toNat ≤ '9'.toNat then some (c.toNat - '0'.toNat)
  else if 'a'.toNat ≤ c.toNat ∧ c.toNat ≤ 'f'.toNat then some (c.toNat - 'a'.toNat + 10)
  else if 'A'.toNat ≤ c.toNat ∧ c.toNat ≤ 'F'.toNat then some (c.toNat - 'A'.toNat + 10)
  else none

/-- `hex.Decode` of a digit string, most significant digit first, onto `acc`. -/
def hexDecode : List Char → Nat → Option Nat
  | [], acc => some acc
  | c :: cs, acc =>
    match fromHexChar c with
    | none => none
    | some d => hexDecode cs (acc * 16 + d)

/-- `primitive.ObjectIDFromHex`: the string must be 24 long and all of it
hexadecimal digits.  (Go measures bytes; a string of hexadecimal digits has as
many bytes as characters, and a string with a longer character fails the digit
test.) -/
def ObjectIDFromHex (s : String) : Option ObjectID :=
  if s.toList.length ≠ 24 then none else hexDecode s.toList 0

/-- One lower-case hexadecimal digit, as `hex.EncodeToString` writes it. -/
def hexDigit (d : Nat) : Char := if d < 10 then Char.ofNat (48 + d) else Char.ofNat (87 + d)

/-- The `n` least significant hexadecimal digits of `v`, most significant first. -/
def hexEncode : Nat → Nat → List Char
  | 0, _ => []
  | n + 1, v => hexEncode n (v / 16) ++ [hexDigit (v % 16)]

/-- `ObjectID.Hex`: the 24 hexadecimal digits of the twelve bytes. -/
def ObjectID.Hex (id : ObjectID) : String := String.mk (hexEncode 24 id)

/-! ## Timestamps -/

/-- A Go `time.Time`, as the instant it denotes: nanoseconds since the Unix
epoch.  The zone a value is printed in is not part of the embedding. -/
structure Time where
  unixNano : Int
deriving DecidableEq, Repr

/-- `primitive.NewDateTimeFromTime`: `t.Unix()*1e3 + t.Nanosecond()/1e6`, the
whole milliseconds since the epoch (rounded down). -/
def NewDateTimeFromTime (t : Time) : Int := t.unixNano.fdiv 1000000

/-- `primitive.DateTime.Time`: the instant of a BSON datetime. -/
def DateTimeToTime (dt : Int) : Time := ⟨dt * 1000000⟩

/-! ## Go slices -/

/-- A Go slice variable: `none` is the nil slice a `var s []T` starts as. -/
abbrev Slice (α : Type) := Option (List α)

/-- Go `append(s, x)`: the result is never nil. -/
def Slice.append {α : Type} (s : Slice α) (x : α) : Slice α := some (s.getD [] ++ [x])

/-- What `encoding/json` writes for a slice: a nil slice is the JSON value
`null`, any other slice is a JSON array of its elements. -/
inductive JSONShape where
  | null
  | array (len : Nat)
deriving DecidableEq, Repr

/-- JSON shape of an encoded slice. -/
def Slice.jsonShape {α : Type} : Slice α → JSONShape
  | none => JSONShape.null
  | some xs => JSONShape.array xs.length

/-! ## Sizes of BSON values -/

/-- `maxBsonObjectSize`, 16 MiB: the greatest size in bytes of a document the
store keeps and of an insert or update statement the driver sends. -/
def maxBsonObjectSize : Nat := 16777216

/-- Bytes of one character in UTF-8. -/
def utf8Size (c : Char) : Nat :=
  if c.toNat < 128 then 1 else if c.toNat < 2048 then 2 else if c.toNat < 65536 then 3 else 4

/-- Bytes of a list of characters in UTF-8. -/
def utf8Len : List Char → Nat
  | [] => 0
  | c :: cs => utf8Size c + utf8Len cs

/-- Go `len(s)`: the bytes of a string. -/
def strLen (s : String) : Nat := utf8Len s.toList

/-- A BSON element: the type byte, the key and its NUL, the value. -/
def bsonElement (key : String) (value : Nat) : Nat := 1 + (strLen key + 1) + value

/-- A BSON string value: the int32 length, the bytes and a NUL. -/
def bsonString (v : String) : Nat := 4 + strLen v + 1

/-- A BSON document: the int32 length, the elements and a NUL. -/
def bsonDocument (elements : Nat) : Nat := 4 + elements + 1

/-- A string element that is present only for `some`. -/
def bsonOptString (key : String) : Option String → Nat
  | none => 0
  | some v => bsonElement key (bsonString v)

/-- The elements of a BSON array of ObjectIDs (twelve bytes each) from index
`i` on; the keys of an array are the decimal indices. -/
def bsonObjectIDs : Nat → List ObjectID → Nat
  | _, [] => 0
  | i, _ :: ids => bsonElement (Nat.repr i) 12 + bsonObjectIDs (i + 1) ids

/-- An array element holding ObjectIDs. -/
def bsonObjectIDArray (key : String) (ids : List ObjectID) : Nat :=
  bsonElement key (bsonDocument (bsonObjectIDs 0 ids))

/-- The statement `UpdateOne(bson.M{"_id": id}, bson.M{"$set": ...})` sends:
the document of `q`, the filter with its ObjectID, and `u`, the update with
its `$set` document, whose elements take `setElements` bytes. -/
def updateStatementSize (setElements : Nat) : Nat :=
  bsonDocument
    (bsonElement "q" (bsonDocument (bsonElement "_id" 12)) +
     bsonElement "u" (bsonDocument (bsonElement "$set" (bsonDocument setElements))))

/-! ## Data model -/

/-- The struct `Evento`. -/
structure Evento where
  ID : ObjectID
  Nome : String
  Descricao : String
  Data : Time
  Endereco : String
  BackgroundColor : String
  TextColor : String
deriving DecidableEq, Repr

/-- The struct `Participante`. -/
structure Participante where
  ID : ObjectID
  Nome : String
  Email : String
  Empresa : String
  ProfilePictureBase64 : String
  EventosParticipados : List ObjectID
deriving DecidableEq, Repr

/-- A document of the `eventos` collection, one field per key.

`Evento` gives a `bson` tag to `ID` only (`_id,omitempty`), so its other fields
are stored under the lower-cased field names: `nome`, `descricao`, `data`,
`endereco`, `backgroundcolor`, `textcolor`.  The keys `background_color` and
`text_color` are the ones the `$set` of `updateEventoHandler` writes; they are
absent until an update writes them and no field of `Evento` reads them. -/
structure EventoDoc where
  _id : ObjectID
  nome : String
  descricao : String
  data : Int
  endereco : String
  backgroundcolor : String
  textcolor : String
  background_color : Option String
  text_color : Option String
deriving DecidableEq, Repr

/-- A document of the `participantes` collection, one field per key.
`empresa` and `profile_picture_base64` are tagged `omitempty`: an inserted
document has the key only when the string is not empty. -/
structure ParticipanteDoc where
  _id : ObjectID
  nome : String
  email : String
  empresa : Option String
  profile_picture_base64 : Option String
  eventos_participados : List ObjectID
deriving DecidableEq, Repr

/-- The two collections of database `eventodb`, each in natural order. -/
structure Store where
  eventos : List EventoDoc
  participantes : List ParticipanteDoc
deriving DecidableEq, Repr

/-- The store keeps `_id` unique within each collection. -/
def Store.WF (st : Store) : Prop :=
  (st.eventos.map (fun d => d._id)).Nodup ∧ (st.participantes.map (fun d => d._id)).Nodup

/-- Size in bytes of a document of `eventos`: the ObjectID, five strings, the
datetime (eight bytes) and the two keys an update may have added. -/
def EventoDoc.bsonSize (d : EventoDoc) : Nat :=
  bsonDocument
    (bsonElement "_id" 12 + bsonElement "nome" (bsonString d.nome) +
     bsonElement "descricao" (bsonString d.descricao) + bsonElement "data" 8 +
     bsonElement "endereco" (bsonString d.endereco) +
     bsonElement "backgroundcolor" (bsonString d.backgroundcolor) +
     bsonElement "textcolor" (bsonString d.textcolor) +
     bsonOptString "background_color" d.background_color +
     bsonOptString "text_color" d.text_color)

/-- Size in bytes of a document of `participantes`. -/
def ParticipanteDoc.bsonSize (d : ParticipanteDoc) : Nat :=
  bsonDocument
    (bsonElement "_id" 12 + bsonElement "nome" (bsonString d.nome) +
     bsonElement "email" (bsonString d.email) +
     bsonOptString "empresa" d.empresa +
     bsonOptString "profile_picture_base64" d.profile_picture_base64 +
     bsonObjectIDArray "eventos_participados" d.eventos_participados)

/-! ## Encoding and decoding documents -/

/-- BSON encoding of an `Evento` inserted under `_id = oid`. -/
def Evento.toDoc (e : Evento) (oid : ObjectID) : EventoDoc :=
  { _id := oid, nome := e.Nome, descricao := e.Descricao,
    data := NewDateTimeFromTime e.Data, endereco := e.Endereco,
    backgroundcolor := e.BackgroundColor, textcolor := e.TextColor,
    background_color := none, text_color := none }

/-- `Decode(&evento)`: every key an `Evento` field reads is present in every
document, so the value decoded into does not matter. -/
def EventoDoc.decode (d : EventoDoc) : Evento :=
  { ID := d._id, Nome := d.nome, Descricao := d.descricao,
    Data := DateTimeToTime d.data, Endereco := d.endereco,
    BackgroundColor := d.backgroundcolor, TextColor := d.textcolor }

/-- The `omitempty` rule for a string. -/
def omitempty (s : String) : Option String := if s = "" then none else some s

/-- BSON encoding of a `Participante` inserted under `_id = oid`. -/
def Participante.toDoc (p : Participante) (oid : ObjectID) : ParticipanteDoc :=
  { _id := oid, nome := p.Nome, email := p.Email,
    empresa := omitempty p.Empresa,
    profile_picture_base64 := omitempty p.ProfilePictureBase64,
    eventos_participados := p.EventosParticipados }

/-- `Decode(&p)` into an existing struct value `p`: a field whose key is
absent from the document keeps the value it had. -/
def ParticipanteDoc.decodeInto (d : ParticipanteDoc) (p : Participante) : Participante :=
  { ID := d._id, Nome := d.nome, Email := d.email,
    Empresa := d.empresa.getD p.Empresa,
    ProfilePictureBase64 := d.profile_picture_base64.getD p.ProfilePictureBase64,
    EventosParticipados := d.eventos_participados }

/-- The zero value of `Participante` (`var p Participante`). -/
def Participante.zero : Participante :=
  { ID := 0, Nome := "", Email := "", Empresa := "", ProfilePictureBase64 := "",
    EventosParticipados := [] }

/-! ## Collection operations -/

/-- The errors the store reports to the handlers. -/
inductive StoreError where
  | noDocuments
  | duplicateKey
  | documentTooLarge
deriving DecidableEq, Repr

/-- `FindOne(filter)`: the first document matching, or "no documents". -/
def FindOne {α : Type} (c : List α) (filter : α → Bool) : Option α := c.find? filter

/-- `UpdateOne(filter, update)`: the first document matching is updated;
returns `MatchedCount` and the collection. -/
def UpdateOne {α : Type} (filter : α → Bool) (update : α → α) : List α → Nat × List α
  | [] => (0, [])
  | d :: ds =>
    if filter d then (1, update d :: ds)
    else ((UpdateOne filter update ds).1, d :: (UpdateOne filter update ds).2)

/-- The error of `UpdateOne(filter, update)`, if any: the statement, of `stmt`
bytes, is over the limit, or the document matching would be over the limit
once updated (`size` measures a document).  With no error the write is
`UpdateOne`. -/
def UpdateOneErr {α : Type} (stmt : Nat) (size : α → Nat) (filter : α → Bool)
    (update : α → α) (c : List α) : Option StoreError :=
  if stmt > maxBsonObjectSize then some StoreError.documentTooLarge
  else
    match FindOne c filter with
    | some d =>
      if size (update d) > maxBsonObjectSize then some StoreError.documentTooLarge else none
    | none => none

/-- `DeleteOne(filter)`: the first document matching is removed; returns
`DeletedCount` and the collection. -/
def DeleteOne {α : Type} (filter : α → Bool) : List α → Nat × List α
  | [] => (0, [])
  | d :: ds =>
    if filter d then (1, ds)
    else ((DeleteOne filter ds).1, d :: (DeleteOne filter ds).2)

/-- `Find(filter)`: the cursor over all documents matching, in natural order. -/
def Find {α : Type} (c : List α) (filter : α → Bool) : List α := c.filter filter

/-- The `_id` a struct is inserted under: its own when not zero, else the one
the driver generates (`gen`). -/
def insertedID (own gen : ObjectID) : ObjectID := if own.IsZero then gen else own

/-- `eventosCollection.InsertOne(novoEvento)`, where `gen` is the identifier
the driver would generate: the driver refuses a document over the limit, the
store one whose `_id` is in use; else the document is appended and its `_id`
returned as `InsertedID`. -/
def InsertOneEvento (c : List EventoDoc) (e : Evento) (gen : ObjectID) :
    Except StoreError (ObjectID × List EventoDoc) :=
  if (e.toDoc (insertedID e.ID gen)).bsonSize > maxBsonObjectSize then
    Except.error StoreError.documentTooLarge
  else if c.any (fun d => d._id == insertedID e.ID gen) then
    Except.error StoreError.duplicateKey
  else Except.ok (insertedID e.ID gen, c ++ [e.toDoc (insertedID e.ID gen)])

/-- `participantesCollection.InsertOne(novoParticipante)`, likewise. -/
def InsertOneParticipante (c : List ParticipanteDoc) (p : Participante) (gen : ObjectID) :
    Except StoreError (ObjectID × List ParticipanteDoc) :=
  if (p.toDoc (insertedID p.ID gen)).bsonSize > maxBsonObjectSize then
    Except.error StoreError.documentTooLarge
  else if c.any (fun d => d._id == insertedID p.ID gen) then
    Except.error StoreError.duplicateKey
  else Except.ok (insertedID p.ID gen, c ++ [p.toDoc (insertedID p.ID gen)])

/-- `FindOne(bson.M{}, SetSort(_id: -1))`: the document with the greatest
`_id`, or "no documents" on an empty collection. -/
def FindOneLatest : List EventoDoc → Option EventoDoc
  | [] => none
  | d :: ds =>
    match FindOneLatest ds with
    | none => some d
    | some b => if d._id < b._id then some b else some d

/-! ## Responses -/

/-- What a handler wrote to the response body: nothing, the text of an
`http.Error` the handler words itself, the `err.Error()` of a store error, or
a JSON value. -/
inductive Body where
  | empty
  | error (msg : String)
  | storeError (err : StoreError)
  | evento (e : Evento)
  | eventos (es : Slice Evento)
  | participante (p : Participante)
  | participantes (ps : Slice Participante)
deriving DecidableEq, Repr

/-- Status code and body of a response. -/
structure Response where
  status : Nat
  body : Body
deriving DecidableEq, Repr

/-! ## Event handlers -/

/-- `getEventosHandler`. -/
def getEventosHandler (st : Store) : Response × Store :=
  (⟨200, Body.eventos
      ((Find st.eventos (fun _ => true)).foldl (fun acc d => Slice.append acc d.decode) none)⟩, st)

/-- `getEventoHandler`, on the path parameter `id`. -/
def getEventoHandler (st : Store) (idParam : String) : Response × Store :=
  match ObjectIDFromHex idParam with
  | none => (⟨400, Body.error "ID de evento inválido"⟩, st)
  | some objID =>
    match FindOne st.eventos (fun d => d._id == objID) with
    | none => (⟨404, Body.error "Evento não encontrado"⟩, st)
    | some d => (⟨200, Body.evento d.decode⟩, st)

/-- `createEventoHandler`; `body` is the request body decoded as JSON (`none`
when decoding fails) and `gen` the identifier the driver would generate. -/
def createEventoHandler (st : Store) (body : Option Evento) (gen : ObjectID) :
    Response × Store :=
  match body with
  | none => (⟨400, Body.error "Requisição inválida"⟩, st)
  | some novoEvento =>
    match InsertOneEvento st.eventos novoEvento gen with
    | Except.error err => (⟨500, Body.storeError err⟩, st)
    | Except.ok (oid, c) =>
      (⟨201, Body.evento { novoEvento with ID := oid }⟩, { st with eventos := c })

/-- Bytes of the elements of the `$set` document of `updateEventoHandler`. -/
def setEventoElements (e : Evento) : Nat :=
  bsonElement "nome" (bsonString e.Nome) + bsonElement "descricao" (bsonString e.Descricao) +
  bsonElement "data" 8 + bsonElement "endereco" (bsonString e.Endereco) +
  bsonElement "background_color" (bsonString e.BackgroundColor) +
  bsonElement "text_color" (bsonString e.TextColor)

/-- The `$set` document of `updateEventoHandler`, applied to a stored document. -/
def setEvento (e : Evento) (d : EventoDoc) : EventoDoc :=
  { d with nome := e.Nome, descricao := e.Descricao,
           data := NewDateTimeFromTime e.Data, endereco := e.Endereco,
           background_color := some e.BackgroundColor,
           text_color := some e.TextColor }

/-- `updateEventoHandler`. -/
def updateEventoHandler (st : Store) (idParam : String) (body : Option Evento) :
    Response × Store :=
  match ObjectIDFromHex idParam with
  | none => (⟨400, Body.error "ID de evento inválido"⟩, st)
  | some objID =>
    match body with
    | none => (⟨400, Body.error "Requisição inválida"⟩, st)
    | some eventoAtualizado =>
      match UpdateOneErr (updateStatementSize (setEventoElements eventoAtualizado))
          EventoDoc.bsonSize (fun d => d._id == objID) (setEvento eventoAtualizado)
          st.eventos with
      | some err => (⟨500, Body.storeError err⟩, st)
      | none =>
        let result := UpdateOne (fun d => d._id == objID) (setEvento eventoAtualizado) st.eventos
        if result.1 = 0 then
          (⟨404, Body.error "Evento não encontrado"⟩, { st with eventos := result.2 })
        else
          match FindOne result.2 (fun d => d._id == objID) with
          | none =>
            (⟨500, Body.storeError StoreError.noDocuments⟩, { st with eventos := result.2 })
          | some d => (⟨200, Body.evento d.decode⟩, { st with eventos := result.2 })

/-- `deleteEventoHandler`. -/
def deleteEventoHandler (st : Store) (idParam : String) : Response × Store :=
  match ObjectIDFromHex idParam with
  | none => (⟨400, Body.error "ID de evento inválido"⟩, st)
  | some objID =>
    let result := DeleteOne (fun d => d._id == objID) st.eventos
    if result.1 = 0 then (⟨404, Body.error "Evento não encontrado"⟩, { st with eventos := result.2 })
    else (⟨204, Body.empty⟩, { st with eventos := result.2 })

/-! ## Participant handlers -/

/-- The loop of `createParticipanteHandler` over `EventosParticipados`: is
`eventObjID` one of the identifiers? -/
def foundIn (eventObjID : ObjectID) : List ObjectID → Bool
  | [] => false
  | id :: ids => if id = eventObjID then true else foundIn eventObjID ids

/-- The map `updateFields` of `createParticipanteHandler`: the key
`profile_picture_base64` and the key `empresa`, each present only when the
payload's string is not empty. -/
structure UpdateFields where
  profile_picture_base64 : Option String
  empresa : Option String
deriving DecidableEq, Repr

/-- How `createParticipanteHandler` fills `updateFields` from the payload. -/
def updateFieldsOf (novoParticipante : Participante) : UpdateFields :=
  { profile_picture_base64 :=
      if novoParticipante.ProfilePictureBase64 ≠ "" then some novoParticipante.ProfilePictureBase64
      else none,
    empresa := if novoParticipante.Empresa ≠ "" then some novoParticipante.Empresa else none }

/-- `len(updateFields)`. -/
def UpdateFields.len (u : UpdateFields) : Nat :=
  (if u.profile_picture_base64.isSome then 1 else 0) + (if u.empresa.isSome then 1 else 0)

/-- `$set` of `updateFields` on a stored document: only the keys present. -/
def setUpdateFields (u : UpdateFields) (d : ParticipanteDoc) : ParticipanteDoc :=
  { d with
    profile_picture_base64 :=
      match u.profile_picture_base64 with
      | some v => some v
      | none => d.profile_picture_base64,
    empresa :=
      match u.empresa with
      | some v => some v
      | none => d.empresa }

/-- The copy of `updateFields` into the local struct, for the response. -/
def applyUpdateFields (u : UpdateFields) (p : Participante) : Participante :=
  { p with
    ProfilePictureBase64 := u.profile_picture_base64.getD p.ProfilePictureBase64,
    Empresa := u.empresa.getD p.Empresa }

/-- Bytes of the elements of `updateFields` as a `$set` document. -/
def UpdateFields.elements (u : UpdateFields) : Nat :=
  bsonOptString "profile_picture_base64" u.profile_picture_base64 +
  bsonOptString "empresa" u.empresa

/-- The second half of the branch of `createParticipanteHandler` taken when a
participant with the payload's email exists (lines 301-326): the picture and
company supplied are written and copied into the local struct, which is
returned.  `existingParticipante` is the local struct as the first half left
it. -/
def linkFields (st : Store) (novoParticipante : Participante)
    (existingParticipante : Participante) : Response × Store :=
  let updateFields := updateFieldsOf novoParticipante
  if updateFields.len > 0 then
    match UpdateOneErr (updateStatementSize updateFields.elements) ParticipanteDoc.bsonSize
        (fun d => d._id == existingParticipante.ID) (setUpdateFields updateFields)
        st.participantes with
    | some err => (⟨500, Body.storeError err⟩, st)
    | none =>
      (⟨200, Body.participante (applyUpdateFields updateFields existingParticipante)⟩,
       { st with participantes :=
          (UpdateOne (fun d => d._id == existingParticipante.ID) (setUpdateFields updateFields)
            st.participantes).2 })
  else
    (⟨200, Body.participante existingParticipante⟩, st)

/-- The branch of `createParticipanteHandler` taken when a participant with the
payload's email exists (lines 283-326): `doc` is the document found,
`eventObjID` the latest event's identifier. -/
def linkExisting (st : Store) (novoParticipante : Participante) (eventObjID : ObjectID)
    (doc : ParticipanteDoc) : Response × Store :=
  let existingParticipante := doc.decodeInto Participante.zero
  if !foundIn eventObjID existingParticipante.EventosParticipados then
    let eventos := existingParticipante.EventosParticipados ++ [eventObjID]
    match UpdateOneErr
        (updateStatementSize (bsonObjectIDArray "eventos_participados" eventos))
        ParticipanteDoc.bsonSize (fun d => d._id == existingParticipante.ID)
        (fun d => { d with eventos_participados := eventos }) st.participantes with
    | some err => (⟨500, Body.storeError err⟩, st)
    | none =>
      linkFields
        { st with participantes :=
            (UpdateOne (fun d => d._id == existingParticipante.ID)
              (fun d => { d with eventos_participados := eventos }) st.participantes).2 }
        novoParticipante { existingParticipante with EventosParticipados := eventos }
  else linkFields st novoParticipante existingParticipante

/-- `createParticipanteHandler` (create-or-link); `body` is the request body
decoded as JSON (`none` when decoding fails) and `gen` the identifier the
driver would generate for a new document. -/
def createParticipanteHandler (st : Store) (body : Option Participante) (gen : ObjectID) :
    Response × Store :=
  match body with
  | none => (⟨400, Body.error "Requisição inválida"⟩, st)
  | some novoParticipante =>
    match FindOneLatest st.eventos with
    | none =>
      (⟨404, Body.error
          "Nenhum evento encontrado para vincular o participante. Crie um evento primeiro."⟩, st)
    | some latestEvent =>
      let eventObjID := latestEvent.decode.ID
      match FindOne st.participantes (fun d => d.email == novoParticipante.Email) with
      | some doc => linkExisting st novoParticipante eventObjID doc
      | none =>
        let novoParticipante1 := { novoParticipante with EventosParticipados := [eventObjID] }
        match InsertOneParticipante st.participantes novoParticipante1 gen with
        | Except.error err => (⟨500, Body.storeError err⟩, st)
        | Except.ok (oid, c) =>
          (⟨201, Body.participante { novoParticipante1 with ID := oid }⟩,
           { st with participantes := c })

/-- `getParticipantesByEventHandler`, on the path parameter `eventId`.  The
filter `eventos_participados: eventObjID` matches a document whose array holds
the identifier. -/
def getParticipantesByEventHandler (st : Store) (eventIdParam : String) : Response × Store :=
  match ObjectIDFromHex eventIdParam with
  | none => (⟨400, Body.error "ID de evento inválido"⟩, st)
  | some eventObjID =>
    let cursor := Find st.participantes (fun d => d.eventos_participados.contains eventObjID)
    let participantes : Slice Participante :=
      cursor.foldl (fun acc d => Slice.append acc (d.decodeInto Participante.zero)) none
    (⟨200, Body.participantes participantes⟩, st)

/-- `getParticipanteHandler`. -/
def getParticipanteHandler (st : Store) (idParam : String) : Response × Store :=
  match ObjectIDFromHex idParam with
  | none => (⟨400, Body.error "ID de participante inválido"⟩, st)
  | some objID =>
    match FindOne st.participantes (fun d => d._id == objID) with
    | none => (⟨404, Body.error "Participante não encontrado"⟩, st)
    | some d => (⟨200, Body.participante (d.decodeInto Participante.zero)⟩, st)

/-- Bytes of the elements of the `$set` document of `updateParticipanteHandler`. -/
def setParticipanteElements (p : Participante) : Nat :=
  bsonElement "nome" (bsonString p.Nome) + bsonElement "email" (bsonString p.Email) +
  bsonElement "profile_picture_base64" (bsonString p.ProfilePictureBase64) +
  bsonElement "empresa" (bsonString p.Empresa)

/-- The `$set` document of `updateParticipanteHandler`, applied to a stored
document: the four keys it names, `eventos_participados` not among them. -/
def setParticipante (p : Participante) (d : ParticipanteDoc) : ParticipanteDoc :=
  { d with nome := p.Nome, email := p.Email,
           profile_picture_base64 := some p.ProfilePictureBase64,
           empresa := some p.Empresa }

/-- `updateParticipanteHandler`. -/
def updateParticipanteHandler (st : Store) (idParam : String) (body : Option Participante) :
    Response × Store :=
  match ObjectIDFromHex idParam with
  | none => (⟨400, Body.error "ID de participante inválido"⟩, st)
  | some objID =>
    match body with
    | none => (⟨400, Body.error "Requisição inválida"⟩, st)
    | some participanteAtualizado =>
      match UpdateOneErr (updateStatementSize (setParticipanteElements participanteAtualizado))
          ParticipanteDoc.bsonSize (fun d => d._id == objID)
          (setParticipante participanteAtualizado) st.participantes with
      | some err => (⟨500, Body.storeError err⟩, st)
      | none =>
        let result :=
          UpdateOne (fun d => d._id == objID) (setParticipante participanteAtualizado)
            st.participantes
        if result.1 = 0 then
          (⟨404, Body.error "Participante não encontrado"⟩, { st with participantes := result.2 })
        else
          match FindOne result.2 (fun d => d._id == objID) with
          | none =>
            (⟨500, Body.storeError StoreError.noDocuments⟩,
             { st with participantes := result.2 })
          | some d =>
            (⟨200, Body.participante (d.decodeInto participanteAtualizado)⟩,
             { st with participantes := result.2 })

/-- `deleteParticipanteHandler`. -/
def deleteParticipanteHandler (st : Store) (idParam : String) : Response × Store :=
  match ObjectIDFromHex idParam with
  | none => (⟨400, Body.error "ID de participante inválido"⟩, st)
  | some objID =>
    let result := DeleteOne (fun d => d._id == objID) st.participantes
    if result.1 = 0 then
      (⟨404, Body.error "Participante não encontrado"⟩, { st with participantes := result.2 })
    else (⟨204, Body.empty⟩, { st with participantes := result.2 })

/-! ## Sample data -/

/-- A stored event with identifier 1. -/
def exEvento1 : EventoDoc :=
  { _id := 1, nome := "Launch", descricao := "first", data := 1700000000000, endereco := "Rua A",
    backgroundcolor := "#ffffff", textcolor := "#000000", background_color := none,
    text_color := none }

/-- A stored event with identifier 2. -/
def exEvento2 : EventoDoc :=
  { _id := 2, nome := "Meetup", descricao := "second", data := 1700000100000, endereco := "Rua B",
    backgroundcolor := "#112233", textcolor := "#eeeeee", background_color := none,
    text_color := none }

/-- A stored participant with identifier 7, linked to event 1. -/
def exParticipanteDoc : ParticipanteDoc :=
  { _id := 7, nome := "Ana", email := "a@x.com", empresa := none,
    profile_picture_base64 := none, eventos_participados := [1] }

/-- A payload with a new email and no identifier, carrying an event list of its own. -/
def exPayloadNew : Participante :=
  { ID := 0, Nome := "Bia", Email := "b@x.com", Empresa := "", ProfilePictureBase64 := "",
    EventosParticipados := [9] }

/-- A payload with a new email that carries the identifier of the stored participant. -/
def exPayloadUsedID : Participante :=
  { ID := 7, Nome := "Bia", Email := "b@x.com", Empresa := "", ProfilePictureBase64 := "",
    EventosParticipados := [] }

/-- A payload with the stored participant's email, a company and no picture. -/
def exPayloadAna : Participante :=
  { ID := 33, Nome := "Other", Email := "a@x.com", Empresa := "Acme", ProfilePictureBase64 := "",
    EventosParticipados := [9] }

/-- No event, one participant. -/
def exStoreNoEvent : Store := { eventos := [], participantes := [exParticipanteDoc] }

/-- One event, one participant. -/
def exStoreOne : Store := { eventos := [exEvento1], participantes := [exParticipanteDoc] }

/-- Two events, created 1 then 2, and one participant. -/
def exStoreTwo : Store := { eventos := [exEvento1, exEvento2], participantes := [exParticipanteDoc] }

/-- An update body that carries an identifier and an event list of its own. -/
def exUpdateBody : Participante :=
  { ID := 99, Nome := "Ana Maria", Email := "ana@x.com", Empresa := "Acme",
    ProfilePictureBase64 := "", EventosParticipados := [5, 6] }

/-- No event, no participant. -/
def exStoreEmpty : Store := { eventos := [], participantes := [] }

/-- An event payload with no identifier and a timestamp one nanosecond past a
whole millisecond. -/
def exEventoPayload : Evento :=
  { ID := 0, Nome := "Launch", Descricao := "first", Data := ⟨1700000000000000001⟩,
    Endereco := "Rua A", BackgroundColor := "#ffffff", TextColor := "#000000" }

/-- An update body that carries an identifier of its own, new colours and a
timestamp one nanosecond past a whole millisecond. -/
def exEventoBody : Evento :=
  { ID := 9, Nome := "Renamed", Descricao := "changed", Data := ⟨1700000200000000001⟩,
    Endereco := "Rua C", BackgroundColor := "#ff0000", TextColor := "#00ff00" }

/-- The payload event 1 of the samples is created from. -/
def exEvento1Payload : Evento :=
  { ID := 0, Nome := "Launch", Descricao := "first", Data := ⟨1700000000000000000⟩,
    Endereco := "Rua A", BackgroundColor := "#ffffff", TextColor := "#000000" }

/-- The payload event 2 of the samples is created from. -/
def exEvento2Payload : Evento :=
  { ID := 0, Nome := "Meetup", Descricao := "second", Data := ⟨1700000100000000000⟩,
    Endereco := "Rua B", BackgroundColor := "#112233", TextColor := "#eeeeee" }

/-- The payload the stored participant of the samples is created from. -/
def exAnaPayload : Participante :=
  { ID := 0, Nome := "Ana", Email := "a@x.com", Empresa := "", ProfilePictureBase64 := "",
    EventosParticipados := [] }

/-- An event payload that carries an identifier of its own, 9. -/
def exEventoPayloadWithID : Evento :=
  { ID := 9, Nome := "Launch", Descricao := "first", Data := ⟨1700000000000000000⟩,
    Endereco := "Rua A", BackgroundColor := "#ffffff", TextColor := "#000000" }

/-- A string of 17,000,000 bytes, more than `maxBsonObjectSize`. -/
def exBigString : String := String.mk (List.replicate 17000000 'a')

/-- The stored participant's email with a picture of 17,000,000 bytes. -/
def exPayloadBigPicture : Participante :=
  { ID := 0, Nome := "Ana", Email := "a@x.com", Empresa := "",
    ProfilePictureBase64 := exBigString, EventosParticipados := [] }

/-- The stored participant's email with a company of 17,000,000 bytes. -/
def exPayloadBigCompany : Participante :=
  { ID := 0, Nome := "Ana", Email := "a@x.com", Empresa := exBigString,
    ProfilePictureBase64 := "", EventosParticipados := [] }

/-- An event payload without identifier whose description has 17,000,000 bytes. -/
def exEventoPayloadBig : Evento :=
  { ID := 0, Nome := "Launch", Descricao := exBigString, Data := ⟨1700000000000000000⟩,
    Endereco := "Rua A", BackgroundColor := "#ffffff", TextColor := "#000000" }

/-- An update body whose description has 17,000,000 bytes. -/
def exEventoBodyBig : Evento :=
  { ID := 0, Nome := "Renamed", Descricao := exBigString, Data := ⟨1700000200000000000⟩,
    Endereco := "Rua C", BackgroundColor := "#ff0000", TextColor := "#00ff00" }

/-! ## Facts about the collection operations -/

theorem UpdateOne_no_match {α : Type} (f : α → Bool) (u : α → α) (c : List α)
    (h : ∀ d ∈ c, f d = false) : UpdateOne f u c = (0, c) := by
  induction c with
  | nil => rfl
  | cons d ds ih =>
    have hd : f d = false := h d (List.mem_cons_self d ds)
    have ht : UpdateOne f u ds = (0, ds) := ih (fun x hx => h x (List.mem_cons_of_mem d hx))
    unfold UpdateOne
    simp [hd, ht]

theorem UpdateOne_matched_zero {α : Type} (f : α → Bool) (u : α → α) (c : List α)
    (h : (UpdateOne f u c).1 = 0) : ∀ d ∈ c, f d = false := by
  induction c with
  | nil => intro d hd; cases hd
  | cons x xs ih =>
    unfold UpdateOne at h
    by_cases hx : f x = true
    · simp [hx] at h
    · simp [hx] at h
      intro d hd
      rcases List.mem_cons.mp hd with rfl | hmem
      · simpa using hx
      · exact ih h d hmem

/-- A field the update leaves alone reads the same along the whole collection. -/
theorem UpdateOne_map {α β : Type} (f : α → Bool) (u : α → α) (g : α → β)
    (hg : ∀ d, g (u d) = g d) (c : List α) : (UpdateOne f u c).2.map g = c.map g := by
  induction c with
  | nil => rfl
  | cons d ds ih =>
    unfold UpdateOne
    by_cases h : f d = true <;> simp [h, ih, hg]

/-- Reading back with the filter of the update, when the update keeps the
filter's verdict: the document found before, updated. -/
theorem FindOne_UpdateOne {α : Type} (f : α → Bool) (u : α → α)
    (hf : ∀ d, f (u d) = f d) (c : List α) :
    FindOne (UpdateOne f u c).2 f = (FindOne c f).map u := by
  induction c with
  | nil => rfl
  | cons d ds ih =>
    unfold UpdateOne
    by_cases h : f d = true
    · simp [h, FindOne, List.find?, hf]
    · have h2 : f d = false := by simpa using h
      simp only [FindOne] at ih
      simp [h2, FindOne, List.find?, ih]

theorem FindOne_some_mem {α : Type} (c : List α) (f : α → Bool) (d : α)
    (h : FindOne c f = some d) : d ∈ c ∧ f d = true := by
  unfold FindOne at h
  exact ⟨List.mem_of_find?_eq_some h, List.find?_some h⟩

theorem FindOne_none {α : Type} (c : List α) (f : α → Bool) :
    FindOne c f = none ↔ ∀ d ∈ c, f d = false := by
  unfold FindOne
  simp [List.find?_eq_none]

theorem FindOne_isSome_of_mem {α : Type} (c : List α) (f : α → Bool) (d : α)
    (hd : d ∈ c) (hf : f d = true) : ∃ x, FindOne c f = some x := by
  cases hx : FindOne c f with
  | some x => exact ⟨x, rfl⟩
  | none =>
    have := (FindOne_none c f).mp hx d hd
    simp [hf] at this

theorem DeleteOne_no_match {α : Type} (f : α → Bool) (c : List α)
    (h : ∀ d ∈ c, f d = false) : DeleteOne f c = (0, c) := by
  induction c with
  | nil => rfl
  | cons d ds ih =>
    have hd : f d = false := h d (List.mem_cons_self d ds)
    have ht : DeleteOne f ds = (0, ds) := ih (fun x hx => h x (List.mem_cons_of_mem d hx))
    unfold DeleteOne
    simp [hd, ht]

theorem DeleteOne_match {α : Type} (f : α → Bool) (c : List α) (d : α)
    (hd : d ∈ c) (hf : f d = true) : (DeleteOne f c).1 = 1 := by
  induction c with
  | nil => cases hd
  | cons x xs ih =>
    unfold DeleteOne
    by_cases hx : f x = true
    · simp [hx]
    · have hx2 : f x = false := by simpa using hx
      rcases List.mem_cons.mp hd with rfl | hmem
      · simp [hf] at hx2
      · simp [hx2, ih hmem]

/-! ## Facts about the latest event -/

theorem FindOneLatest_eq_none (c : List EventoDoc) : FindOneLatest c = none ↔ c = [] := by
  cases c with
  | nil => simp [FindOneLatest]
  | cons d ds =>
    simp only [FindOneLatest]
    cases FindOneLatest ds with
    | none => simp
    | some b => by_cases h : d._id < b._id <;> simp [h]

/-- The latest event is a stored event and no stored event has a greater `_id`. -/
theorem FindOneLatest_some (c : List EventoDoc) (b : EventoDoc) (h : FindOneLatest c = some b) :
    b ∈ c ∧ ∀ d ∈ c, d._id ≤ b._id := by
  induction c generalizing b with
  | nil => simp [FindOneLatest] at h
  | cons x xs ih =>
    simp only [FindOneLatest] at h
    cases hxs : FindOneLatest xs with
    | none =>
      rw [hxs] at h
      have hnil : xs = [] := (FindOneLatest_eq_none xs).mp hxs
      simp only [Option.some.injEq] at h
      subst h; subst hnil
      simp
    | some m =>
      rw [hxs] at h
      obtain ⟨hm, hmax⟩ := ih m hxs
      by_cases hlt : x._id < m._id
      · simp only [hlt, if_true, Option.some.injEq] at h
        subst h
        refine ⟨List.mem_cons_of_mem x hm, ?_⟩
        intro d hd
        rcases List.mem_cons.mp hd with rfl | hmem
        · exact Nat.le_of_lt hlt
        · exact hmax d hmem
      · simp only [hlt, if_false, Option.some.injEq] at h
        subst h
        refine ⟨List.mem_cons_self _ _, ?_⟩
        intro d hd
        rcases List.mem_cons.mp hd with rfl | hmem
        · exact Nat.le_refl _
        · exact Nat.le_trans (hmax d hmem) (Nat.le_of_not_lt hlt)

theorem FindOneLatest_exists (c : List EventoDoc) (h : c ≠ []) : ∃ b, FindOneLatest c = some b := by
  cases hb : FindOneLatest c with
  | some b => exact ⟨b, rfl⟩
  | none => exact absurd ((FindOneLatest_eq_none c).mp hb) h

theorem foundIn_iff (e : ObjectID) (l : List ObjectID) : foundIn e l = true ↔ e ∈ l := by
  induction l with
  | nil => simp [foundIn]
  | cons x xs ih =>
    unfold foundIn
    by_cases h : x = e
    · simp [h]
    · have h2 : ¬ e = x := fun h3 => h h3.symm
      simp [h, h2, ih]

/-! ## Sizes and the store's refusals -/

theorem utf8Len_replicate (n : Nat) : utf8Len (List.replicate n 'a') = n := by
  induction n with
  | zero => rfl
  | succ k ih =>
    rw [List.replicate_succ, utf8Len, ih]
    have h : utf8Size 'a' = 1 := by decide
    omega

/-- The big sample string has 17,000,000 bytes. -/
theorem exBigString_strLen : strLen exBigString = 17000000 :=
  utf8Len_replicate 17000000

theorem UpdateOneErr_of_stmt {α : Type} (stmt : Nat) (size : α → Nat) (f : α → Bool)
    (u : α → α) (c : List α) (h : stmt > maxBsonObjectSize) :
    UpdateOneErr stmt size f u c = some StoreError.documentTooLarge := by
  simp [UpdateOneErr, h]

theorem UpdateOneErr_none {α : Type} (stmt : Nat) (size : α → Nat) (f : α → Bool)
    (u : α → α) (c : List α) (hstmt : stmt ≤ maxBsonObjectSize)
    (hres : ∀ d, FindOne c f = some d → size (u d) ≤ maxBsonObjectSize) :
    UpdateOneErr stmt size f u c = none := by
  unfold UpdateOneErr
  rw [if_neg (Nat.not_lt.mpr hstmt)]
  cases hf : FindOne c f with
  | none => rfl
  | some d => simp [Nat.not_lt.mpr (hres d hf)]

/-- The only error an update reports is "document too large". -/
theorem UpdateOneErr_cases {α : Type} (stmt : Nat) (size : α → Nat) (f : α → Bool)
    (u : α → α) (c : List α) :
    UpdateOneErr stmt size f u c = none ∨
      UpdateOneErr stmt size f u c = some StoreError.documentTooLarge := by
  unfold UpdateOneErr
  split
  · exact Or.inr rfl
  · split
    · split
      · exact Or.inr rfl
      · exact Or.inl rfl
    · exact Or.inl rfl

/-- An update statement is larger than each string it sets. -/
theorem le_updateStatementSize (n : Nat) : n ≤ updateStatementSize n := by
  unfold updateStatementSize bsonDocument bsonElement
  omega

/-- What an insert of an event answers: an error, or the identifier and the
collection with the document appended, the identifier then being unused and
the document within the limit. -/
theorem InsertOneEvento_cases (c : List EventoDoc) (e : Evento) (gen : ObjectID) :
    (∃ err, InsertOneEvento c e gen = Except.error err) ∨
    (InsertOneEvento c e gen =
        Except.ok (insertedID e.ID gen, c ++ [e.toDoc (insertedID e.ID gen)]) ∧
      (∀ d ∈ c, d._id ≠ insertedID e.ID gen) ∧
      (e.toDoc (insertedID e.ID gen)).bsonSize ≤ maxBsonObjectSize) := by
  unfold InsertOneEvento
  by_cases hbig : (e.toDoc (insertedID e.ID gen)).bsonSize > maxBsonObjectSize
  · exact Or.inl ⟨_, if_pos hbig⟩
  · rw [if_neg hbig]
    cases hany : c.any (fun d => d._id == insertedID e.ID gen) with
    | true => exact Or.inl ⟨_, if_pos rfl⟩
    | false =>
      refine Or.inr ⟨if_neg (by decide), ?_, Nat.not_lt.mp hbig⟩
      intro d hd
      simpa using (List.any_eq_false.mp hany) d hd

/-- What an insert of a participant answers, likewise. -/
theorem InsertOneParticipante_cases (c : List ParticipanteDoc) (p : Participante)
    (gen : ObjectID) :
    (∃ err, InsertOneParticipante c p gen = Except.error err) ∨
    (InsertOneParticipante c p gen =
        Except.ok (insertedID p.ID gen, c ++ [p.toDoc (insertedID p.ID gen)]) ∧
      (∀ d ∈ c, d._id ≠ insertedID p.ID gen) ∧
      (p.toDoc (insertedID p.ID gen)).bsonSize ≤ maxBsonObjectSize) := by
  unfold InsertOneParticipante
  by_cases hbig : (p.toDoc (insertedID p.ID gen)).bsonSize > maxBsonObjectSize
  · exact Or.inl ⟨_, if_pos hbig⟩
  · rw [if_neg hbig]
    cases hany : c.any (fun d => d._id == insertedID p.ID gen) with
    | true => exact Or.inl ⟨_, if_pos rfl⟩
    | false =>
      refine Or.inr ⟨if_neg (by decide), ?_, Nat.not_lt.mp hbig⟩
      intro d hd
      simpa using (List.any_eq_false.mp hany) d hd

/-- An update is accepted exactly when the statement and the matched document
once updated are within the limit. -/
theorem UpdateOneErr_none_iff {α : Type} (stmt : Nat) (size : α → Nat) (f : α → Bool)
    (u : α → α) (c : List α) :
    UpdateOneErr stmt size f u c = none ↔
      stmt ≤ maxBsonObjectSize ∧
      ∀ d, FindOne c f = some d → size (u d) ≤ maxBsonObjectSize := by
  constructor
  · intro h
    unfold UpdateOneErr at h
    by_cases hs : stmt > maxBsonObjectSize
    · rw [if_pos hs] at h
      cases h
    · rw [if_neg hs] at h
      refine ⟨Nat.not_lt.mp hs, ?_⟩
      intro d hd
      rw [hd] at h
      by_cases hr : size (u d) > maxBsonObjectSize
      · simp [hr] at h
      · exact Nat.not_lt.mp hr
  · rintro ⟨hs, hr⟩
    exact UpdateOneErr_none stmt size f u c hs hr

/-! ## The sample stores -/

/-- The sample stores are states the handlers produce from the empty store:
create event 1, register Ana, create event 2. -/
theorem exStores_reachable :
    (createParticipanteHandler (createEventoHandler exStoreEmpty (some exEvento1Payload) 1).2
      (some exAnaPayload) 7).2 = exStoreOne ∧
    (createEventoHandler exStoreOne (some exEvento2Payload) 2).2 = exStoreTwo := by
  decide

/-- The sample stores keep `_id` unique. -/
theorem exStores_WF : exStoreEmpty.WF ∧ exStoreNoEvent.WF ∧ exStoreOne.WF ∧ exStoreTwo.WF := by
  simp [Store.WF, exStoreEmpty, exStoreNoEvent, exStoreOne, exStoreTwo, exEvento1, exEvento2]

/-! ## Create-or-link -/

/-- C1: on a store with no event, create-or-link answers 404 (NotFound) for
every payload and leaves the store, its participants collection included, as
it was: no participant is created or modified. -/
theorem createParticipante_no_event (st : Store) (p : Participante) (gen : ObjectID)
    (h : st.eventos = []) :
    (createParticipanteHandler st (some p) gen).1.status = 404 ∧
    (createParticipanteHandler st (some p) gen).2.participantes = st.participantes ∧
    (createParticipanteHandler st (some p) gen).2 = st := by
  have hl : FindOneLatest st.eventos = none := (FindOneLatest_eq_none _).mpr h
  simp [createParticipanteHandler, hl]

/-- The sample store with a participant and no event: 404, store unchanged. -/
theorem createParticipante_no_event_witness :
    exStoreNoEvent.eventos = [] ∧
    ((createParticipanteHandler exStoreNoEvent (some exPayloadNew) 50).1.status = 404 ∧
     (createParticipanteHandler exStoreNoEvent (some exPayloadNew) 50).2.participantes
       = exStoreNoEvent.participantes ∧
     (createParticipanteHandler exStoreNoEvent (some exPayloadNew) 50).2 = exStoreNoEvent) :=
  ⟨rfl, createParticipante_no_event exStoreNoEvent exPayloadNew 50 rfl⟩

/-! ## Facts about linking an existing participant -/

theorem mem_ids_of_mem (c : List ParticipanteDoc) (d : ParticipanteDoc) (h : d ∈ c) :
    d._id ∈ c.map (fun x => x._id) :=
  List.mem_map.mpr ⟨d, h, rfl⟩

/-- With `_id` unique, a lookup by another filter that finds `doc` still finds
it after an update addressed to `doc._id`, updated. -/
theorem FindOne_UpdateOne_by_id (c : List ParticipanteDoc) (g : ParticipanteDoc → Bool)
    (u : ParticipanteDoc → ParticipanteDoc) (doc : ParticipanteDoc)
    (hnd : (c.map (fun d => d._id)).Nodup) (hg : ∀ d, g (u d) = g d)
    (h : FindOne c g = some doc) :
    FindOne (UpdateOne (fun d => d._id == doc._id) u c).2 g = some (u doc) := by
  induction c with
  | nil => simp [FindOne] at h
  | cons x xs ih =>
    have hnd2 : x._id ∉ xs.map (fun d => d._id) ∧ (xs.map (fun d => d._id)).Nodup := by
      simpa using hnd
    by_cases hgx : g x = true
    · have hx : x = doc := by
        simpa [FindOne, List.find?, hgx] using h
      subst hx
      simp [UpdateOne, FindOne, List.find?, hg, hgx]
    · have hgx2 : g x = false := by simpa using hgx
      have hrest : FindOne xs g = some doc := by
        simpa [FindOne, List.find?, hgx2] using h
      have hmem : doc ∈ xs := (FindOne_some_mem xs g doc hrest).1
      have hne : ¬ x._id = doc._id := by
        intro heq
        exact hnd2.1 (heq ▸ mem_ids_of_mem xs doc hmem)
      have ih2 := ih hnd2.2 hrest
      simp only [FindOne] at ih2
      simp [UpdateOne, hne, FindOne, List.find?, hgx2, ih2]

/-- With `_id` unique, a stored document is the one its `_id` finds. -/
theorem FindOne_by_id_of_mem (c : List ParticipanteDoc) (doc : ParticipanteDoc)
    (hnd : (c.map (fun d => d._id)).Nodup) (hmem : doc ∈ c) :
    FindOne c (fun d => d._id == doc._id) = some doc := by
  induction c with
  | nil => cases hmem
  | cons x xs ih =>
    have hnd2 : x._id ∉ xs.map (fun d => d._id) ∧ (xs.map (fun d => d._id)).Nodup := by
      simpa using hnd
    rcases List.mem_cons.mp hmem with rfl | hxs
    · simp [FindOne, List.find?]
    · have hne : ¬ x._id = doc._id := by
        intro heq
        exact hnd2.1 (heq ▸ mem_ids_of_mem xs doc hxs)
      have hb : (x._id == doc._id) = false := by simpa using hne
      have ih2 := ih hnd2.2 hxs
      simp only [FindOne] at ih2
      simp [FindOne, List.find?, hb, ih2]

theorem UpdateOne_id {α : Type} (f : α → Bool) (u : α → α) (hu : ∀ d, u d = d)
    (c : List α) : (UpdateOne f u c).2 = c := by
  induction c with
  | nil => rfl
  | cons d ds ih =>
    unfold UpdateOne
    by_cases h : f d = true <;> simp [h, ih, hu]

/-- What `updateFields` writes into the local struct, field by field. -/
theorem applyUpdateFields_of (novo x : Participante) :
    applyUpdateFields (updateFieldsOf novo) x =
      { x with
        Empresa := if novo.Empresa ≠ "" then novo.Empresa else x.Empresa,
        ProfilePictureBase64 :=
          if novo.ProfilePictureBase64 ≠ "" then novo.ProfilePictureBase64
          else x.ProfilePictureBase64 } := by
  by_cases h1 : novo.ProfilePictureBase64 = "" <;> by_cases h2 : novo.Empresa = "" <;>
    simp [applyUpdateFields, updateFieldsOf, h1, h2]

/-- What the `$set` of `updateFields` writes into a stored document, key by key. -/
theorem setUpdateFields_of (novo : Participante) (d : ParticipanteDoc) :
    setUpdateFields (updateFieldsOf novo) d =
      { d with
        empresa := if novo.Empresa ≠ "" then some novo.Empresa else d.empresa,
        profile_picture_base64 :=
          if novo.ProfilePictureBase64 ≠ "" then some novo.ProfilePictureBase64
          else d.profile_picture_base64 } := by
  by_cases h1 : novo.ProfilePictureBase64 = "" <;> by_cases h2 : novo.Empresa = "" <;>
    simp [setUpdateFields, updateFieldsOf, h1, h2]

theorem setUpdateFields_empty (novo : Participante) (d : ParticipanteDoc)
    (h : ¬ (updateFieldsOf novo).len > 0) : setUpdateFields (updateFieldsOf novo) d = d := by
  have h1 : novo.ProfilePictureBase64 = "" := by
    by_contra hne
    apply h
    simp [UpdateFields.len, updateFieldsOf, hne]
  have h2 : novo.Empresa = "" := by
    by_contra hne
    apply h
    simp [UpdateFields.len, updateFieldsOf, hne]
  simp [setUpdateFields, updateFieldsOf, h1, h2]

theorem applyUpdateFields_empty (novo x : Participante)
    (h : ¬ (updateFieldsOf novo).len > 0) : applyUpdateFields (updateFieldsOf novo) x = x := by
  have h1 : novo.ProfilePictureBase64 = "" := by
    by_contra hne
    apply h
    simp [UpdateFields.len, updateFieldsOf, hne]
  have h2 : novo.Empresa = "" := by
    by_contra hne
    apply h
    simp [UpdateFields.len, updateFieldsOf, hne]
  simp [applyUpdateFields, updateFieldsOf, h1, h2]

/-- The second half of the linking branch when the store refuses the statement:
500, and the store as the first half left it. -/
theorem linkFields_refused (st : Store) (novo ex : Participante)
    (hlen : (updateFieldsOf novo).len > 0)
    (hbig : updateStatementSize (updateFieldsOf novo).elements > maxBsonObjectSize) :
    linkFields st novo ex = (⟨500, Body.storeError StoreError.documentTooLarge⟩, st) := by
  simp only [linkFields, hlen, if_true, UpdateOneErr_of_stmt _ _ _ _ _ hbig]

/-- The second half of the linking branch when the store accepts the update:
200 with the local struct, the fields supplied copied in, and the document
addressed updated. -/
theorem linkFields_accepted (st : Store) (novo ex : Participante) (x : ParticipanteDoc)
    (hx : FindOne st.participantes (fun d => d._id == ex.ID) = some x)
    (hacc : (updateFieldsOf novo).len > 0 →
      updateStatementSize (updateFieldsOf novo).elements ≤ maxBsonObjectSize ∧
      (setUpdateFields (updateFieldsOf novo) x).bsonSize ≤ maxBsonObjectSize) :
    linkFields st novo ex =
      (⟨200, Body.participante (applyUpdateFields (updateFieldsOf novo) ex)⟩,
       { st with participantes :=
          (UpdateOne (fun d => d._id == ex.ID) (setUpdateFields (updateFieldsOf novo))
            st.participantes).2 }) := by
  by_cases hlen : (updateFieldsOf novo).len > 0
  · obtain ⟨hs, hr⟩ := hacc hlen
    have herr := UpdateOneErr_none (updateStatementSize (updateFieldsOf novo).elements)
      ParticipanteDoc.bsonSize (fun d : ParticipanteDoc => d._id == ex.ID)
      (setUpdateFields (updateFieldsOf novo)) st.participantes hs
      (fun d hd => by rw [hx] at hd; cases hd; exact hr)
    simp only [linkFields, hlen, if_true, herr]
  · have hid := UpdateOne_id (fun d : ParticipanteDoc => d._id == ex.ID)
      (setUpdateFields (updateFieldsOf novo)) (fun d => setUpdateFields_empty novo d hlen)
      st.participantes
    simp only [linkFields, hlen, if_false, hid, applyUpdateFields_empty novo ex hlen]

/-- The linking branch finds the event already listed: only the second half runs. -/
theorem linkExisting_found (st : Store) (novo : Participante) (e : ObjectID)
    (doc : ParticipanteDoc) (h : e ∈ doc.eventos_participados) :
    linkExisting st novo e doc = linkFields st novo (doc.decodeInto Participante.zero) := by
  have hf : foundIn e (doc.decodeInto Participante.zero).EventosParticipados = true :=
    (foundIn_iff _ _).mpr h
  simp [linkExisting, hf]

/-- The linking branch appends the event and the store accepts the update: the
second half runs on the updated collection and local struct. -/
theorem linkExisting_appended (st : Store) (novo : Participante) (e : ObjectID)
    (doc : ParticipanteDoc) (h : e ∉ doc.eventos_participados)
    (herr : UpdateOneErr
      (updateStatementSize
        (bsonObjectIDArray "eventos_participados" (doc.eventos_participados ++ [e])))
      ParticipanteDoc.bsonSize (fun d => d._id == doc._id)
      (fun d => { d with eventos_participados := doc.eventos_participados ++ [e] })
      st.participantes = none) :
    linkExisting st novo e doc =
      linkFields
        { st with participantes :=
            (UpdateOne (fun d => d._id == doc._id)
              (fun d => { d with eventos_participados := doc.eventos_participados ++ [e] })
              st.participantes).2 }
        novo
        { doc.decodeInto Participante.zero with
          EventosParticipados := doc.eventos_participados ++ [e] } := by
  have hf : foundIn e (doc.decodeInto Participante.zero).EventosParticipados = false := by
    cases hx : foundIn e (doc.decodeInto Participante.zero).EventosParticipados with
    | false => rfl
    | true => exact absurd ((foundIn_iff _ _).mp hx) h
  have herr2 : UpdateOneErr
      (updateStatementSize (bsonObjectIDArray "eventos_participados"
        ((doc.decodeInto Participante.zero).EventosParticipados ++ [e])))
      ParticipanteDoc.bsonSize (fun d => d._id == (doc.decodeInto Participante.zero).ID)
      (fun d => { d with eventos_participados :=
        (doc.decodeInto Participante.zero).EventosParticipados ++ [e] })
      st.participantes = none := herr
  simp only [linkExisting, hf, Bool.not_false, if_true, herr2]
  rfl

/-- The linking branch when the store accepts its updates (`_id` unique, `doc`
stored): 200 with the local struct, the event appended when it was not listed
and the fields supplied copied in; the events are untouched; and every lookup
that found `doc` and that the two updates do not disturb finds it afterwards
with the same list and fields written. -/
theorem linkExisting_accepted (st : Store) (novo : Participante) (e : ObjectID)
    (doc : ParticipanteDoc) (hnd : (st.participantes.map (fun d => d._id)).Nodup)
    (hmem : doc ∈ st.participantes)
    (h1 : e ∉ doc.eventos_participados →
      updateStatementSize
        (bsonObjectIDArray "eventos_participados" (doc.eventos_participados ++ [e]))
          ≤ maxBsonObjectSize ∧
      ParticipanteDoc.bsonSize
        { doc with eventos_participados := doc.eventos_participados ++ [e] }
          ≤ maxBsonObjectSize)
    (h2 : (updateFieldsOf novo).len > 0 →
      updateStatementSize (updateFieldsOf novo).elements ≤ maxBsonObjectSize ∧
      ParticipanteDoc.bsonSize
        (setUpdateFields (updateFieldsOf novo)
          { doc with eventos_participados :=
              if e ∈ doc.eventos_participados then doc.eventos_participados
              else doc.eventos_participados ++ [e] }) ≤ maxBsonObjectSize) :
    (linkExisting st novo e doc).1 =
      ⟨200, Body.participante
        (applyUpdateFields (updateFieldsOf novo)
          { doc.decodeInto Participante.zero with
            EventosParticipados :=
              if e ∈ doc.eventos_participados then doc.eventos_participados
              else doc.eventos_participados ++ [e] })⟩ ∧
    (linkExisting st novo e doc).2.eventos = st.eventos ∧
    (linkExisting st novo e doc).2.participantes.map (fun d => d._id)
      = st.participantes.map (fun d => d._id) ∧
    (∀ g : ParticipanteDoc → Bool,
      (∀ (d : ParticipanteDoc) (l : List ObjectID),
        g { d with eventos_participados := l } = g d) →
      (∀ (d : ParticipanteDoc) (u : UpdateFields), g (setUpdateFields u d) = g d) →
      FindOne st.participantes g = some doc →
      FindOne (linkExisting st novo e doc).2.participantes g =
        some (setUpdateFields (updateFieldsOf novo)
          { doc with eventos_participados :=
              if e ∈ doc.eventos_participados then doc.eventos_participados
              else doc.eventos_participados ++ [e] })) := by
  have hid := FindOne_by_id_of_mem st.participantes doc hnd hmem
  by_cases hin : e ∈ doc.eventos_participados
  · simp only [hin, if_true] at h2 ⊢
    have hlf := linkFields_accepted st novo (doc.decodeInto Participante.zero) doc hid h2
    rw [linkExisting_found st novo e doc hin, hlf]
    refine ⟨rfl, rfl, ?_, ?_⟩
    · exact UpdateOne_map (fun d : ParticipanteDoc => d._id == doc._id)
        (setUpdateFields (updateFieldsOf novo)) (fun d => d._id) (fun _ => rfl)
        st.participantes
    · intro g _ hg2 hg
      exact FindOne_UpdateOne_by_id st.participantes g (setUpdateFields (updateFieldsOf novo))
        doc hnd (fun d => hg2 d _) hg
  · simp only [hin, if_false] at h2 ⊢
    obtain ⟨hs1, hr1⟩ := h1 hin
    have herr := UpdateOneErr_none
      (updateStatementSize
        (bsonObjectIDArray "eventos_participados" (doc.eventos_participados ++ [e])))
      ParticipanteDoc.bsonSize (fun d : ParticipanteDoc => d._id == doc._id)
      (fun d => { d with eventos_participados := doc.eventos_participados ++ [e] })
      st.participantes hs1 (fun d hd => by rw [hid] at hd; cases hd; exact hr1)
    have hfind1 := FindOne_UpdateOne (fun d : ParticipanteDoc => d._id == doc._id)
      (fun d => { d with eventos_participados := doc.eventos_participados ++ [e] })
      (fun _ => rfl) st.participantes
    rw [hid] at hfind1
    have hids1 := UpdateOne_map (fun d : ParticipanteDoc => d._id == doc._id)
      (fun d => { d with eventos_participados := doc.eventos_participados ++ [e] })
      (fun d => d._id) (fun _ => rfl) st.participantes
    have hlf := linkFields_accepted
      { st with participantes :=
          (UpdateOne (fun d => d._id == doc._id)
            (fun d => { d with eventos_participados := doc.eventos_participados ++ [e] })
            st.participantes).2 }
      novo
      { doc.decodeInto Participante.zero with
        EventosParticipados := doc.eventos_participados ++ [e] }
      { doc with eventos_participados := doc.eventos_participados ++ [e] } hfind1 h2
    rw [linkExisting_appended st novo e doc hin herr, hlf]
    refine ⟨rfl, rfl, ?_, ?_⟩
    · have hids2 := UpdateOne_map (fun d : ParticipanteDoc => d._id == doc._id)
        (setUpdateFields (updateFieldsOf novo)) (fun d => d._id) (fun _ => rfl)
        (UpdateOne (fun d => d._id == doc._id)
          (fun d => { d with eventos_participados := doc.eventos_participados ++ [e] })
          st.participantes).2
      exact hids2.trans hids1
    · intro g hg1 hg2 hg
      have hg' := FindOne_UpdateOne_by_id st.participantes g
        (fun d => { d with eventos_participados := doc.eventos_participados ++ [e] })
        doc hnd (fun d => hg1 d _) hg
      have hnd1 : ((UpdateOne (fun d => d._id == doc._id)
          (fun d => { d with eventos_participados := doc.eventos_participados ++ [e] })
          st.participantes).2.map (fun d => d._id)).Nodup := by
        rw [hids1]; exact hnd
      exact FindOne_UpdateOne_by_id _ g (setUpdateFields (updateFieldsOf novo))
        { doc with eventos_participados := doc.eventos_participados ++ [e] } hnd1
        (fun d => hg2 d _) hg'

/-- What create-or-link does once the latest event and a participant with the
payload's email are found: it is the linking branch. -/
theorem createParticipante_found (st : Store) (p : Participante) (gen : ObjectID)
    (latest : EventoDoc) (doc : ParticipanteDoc)
    (hl : FindOneLatest st.eventos = some latest)
    (hf : FindOne st.participantes (fun d => d.email == p.Email) = some doc) :
    createParticipanteHandler st (some p) gen = linkExisting st p latest._id doc := by
  simp [createParticipanteHandler, hl, hf, EventoDoc.decode]

theorem FindOne_append_new {α : Type} (c : List α) (x : α) (f : α → Bool)
    (hc : FindOne c f = none) (hx : f x = true) : FindOne (c ++ [x]) f = some x := by
  unfold FindOne at *
  simp [List.find?_append, hc, hx]

/-- The big sample string is not empty. -/
theorem exBigString_ne : exBigString ≠ "" := by
  intro h
  have hlen := exBigString_strLen
  rw [h] at hlen
  revert hlen
  decide

/-- A statement that sets the picture is larger than the picture. -/
theorem picture_le_statement (novo : Participante) (h : novo.ProfilePictureBase64 ≠ "") :
    strLen novo.ProfilePictureBase64 ≤ updateStatementSize (updateFieldsOf novo).elements := by
  refine Nat.le_trans ?_ (le_updateStatementSize _)
  simp only [UpdateFields.elements, updateFieldsOf, h, ne_eq, not_false_eq_true, if_true,
    bsonOptString, bsonElement, bsonString]
  omega

/-- A statement that sets the company is larger than the company. -/
theorem company_le_statement (novo : Participante) (h : novo.Empresa ≠ "") :
    strLen novo.Empresa ≤ updateStatementSize (updateFieldsOf novo).elements := by
  refine Nat.le_trans ?_ (le_updateStatementSize _)
  simp only [UpdateFields.elements, updateFieldsOf, h, ne_eq, not_false_eq_true, if_true,
    bsonOptString, bsonElement, bsonString]
  omega

/-- C2 on the code: one event is stored and no participant has the payload's
email, yet the payload carries the identifier of a stored participant; the
document is inserted under that identifier, the store reports a duplicate key
and the handler answers 500, not 201; nothing is stored. -/
theorem used_id_with_new_email_answers_500 :
    exStoreOne.WF ∧ exStoreOne.eventos ≠ [] ∧
    (∀ d ∈ exStoreOne.participantes, d.email ≠ exPayloadUsedID.Email) ∧
    (createParticipanteHandler exStoreOne (some exPayloadUsedID) 50).1.status = 500 ∧
    (createParticipanteHandler exStoreOne (some exPayloadUsedID) 50).1.status ≠ 201 ∧
    (createParticipanteHandler exStoreOne (some exPayloadUsedID) 50).2 = exStoreOne :=
  ⟨by simp [Store.WF, exStoreOne], by decide, by decide, by decide, by decide, by decide⟩

/-- C3 on the code: one event is stored and both calls carry the same email
(the very same payload), yet the payload carries the identifier of a stored
participant with another email; each call inserts under that identifier, the
store reports a duplicate key, and the second call answers 500, not 200, with
no participant in the response. -/
theorem used_id_submitted_twice_answers_500 :
    exStoreOne.WF ∧ exStoreOne.eventos.length = 1 ∧
    (createParticipanteHandler exStoreOne (some exPayloadUsedID) 50).1 =
      ⟨500, Body.storeError StoreError.duplicateKey⟩ ∧
    (createParticipanteHandler
      (createParticipanteHandler exStoreOne (some exPayloadUsedID) 50).2
      (some exPayloadUsedID) 51).1 = ⟨500, Body.storeError StoreError.duplicateKey⟩ ∧
    (createParticipanteHandler
      (createParticipanteHandler exStoreOne (some exPayloadUsedID) 50).2
      (some exPayloadUsedID) 51).1.status ≠ 200 :=
  ⟨by simp [Store.WF, exStoreOne], by decide, by decide, by decide, by decide⟩

/-- Where the payload's identifier plays no part: a payload that carries none
and a new email, when the generated identifier is unused and the document is
within the limit, is stored as a new participant, 201, whose event list is the
one-element list of the latest event's identifier, the greatest stored one,
whatever list the payload carried. -/
theorem createParticipante_new_email (st : Store) (p : Participante) (gen : ObjectID)
    (latest : EventoDoc) (hl : FindOneLatest st.eventos = some latest)
    (hemail : ∀ d ∈ st.participantes, d.email ≠ p.Email)
    (hnoid : p.ID = 0)
    (hfresh : ∀ d ∈ st.participantes, d._id ≠ gen)
    (hfit : (({ p with EventosParticipados := [latest._id] } : Participante).toDoc
      gen).bsonSize ≤ maxBsonObjectSize) :
    latest ∈ st.eventos ∧ (∀ d ∈ st.eventos, d._id ≤ latest._id) ∧
    createParticipanteHandler st (some p) gen =
      (⟨201, Body.participante { p with ID := gen, EventosParticipados := [latest._id] }⟩,
       { st with participantes := st.participantes ++
          [{ _id := gen, nome := p.Nome, email := p.Email,
             empresa := omitempty p.Empresa,
             profile_picture_base64 := omitempty p.ProfilePictureBase64,
             eventos_participados := [latest._id] }] }) := by
  obtain ⟨hmem, hmax⟩ := FindOneLatest_some st.eventos latest hl
  refine ⟨hmem, hmax, ?_⟩
  have hins : insertedID p.ID gen = gen := by
    simp [insertedID, ObjectID.IsZero, hnoid]
  have hf : FindOne st.participantes (fun d => d.email == p.Email) = none := by
    rw [FindOne_none]
    intro d hd
    simpa using hemail d hd
  have hany : (st.participantes.any (fun d => d._id == gen)) = false := by
    rw [List.any_eq_false]
    intro d hd
    simpa using hfresh d hd
  have hdec : latest.decode.ID = latest._id := rfl
  simp only [createParticipanteHandler, hl, hf, InsertOneParticipante, hdec, hins,
    Nat.not_lt.mpr hfit, gt_iff_lt, if_false, hany, Bool.false_eq_true]
  rfl

/-- The sample store with events 1 and 2 and a payload with a new email, no
identifier and a list of its own: 201 and the new participant is linked to
event 2 only. -/
theorem createParticipante_new_email_sample :
    createParticipanteHandler exStoreTwo (some exPayloadNew) 50 =
      (⟨201, Body.participante { exPayloadNew with ID := 50, EventosParticipados := [2] }⟩,
       { exStoreTwo with participantes := exStoreTwo.participantes ++
          [{ _id := 50, nome := "Bia", email := "b@x.com", empresa := none,
             profile_picture_base64 := none, eventos_participados := [2] }] }) :=
  (createParticipante_new_email exStoreTwo exPayloadNew 50 exEvento2 (by decide) (by decide)
    (by decide) (by decide) (by decide)).2.2

/-- The linking branch answers 500 unless the store accepts the updates it
sends (`_id` unique, `doc` stored). -/
theorem linkExisting_not_500 (st : Store) (novo : Participante) (e : ObjectID)
    (doc : ParticipanteDoc) (hnd : (st.participantes.map (fun d => d._id)).Nodup)
    (hmem : doc ∈ st.participantes)
    (hok : (linkExisting st novo e doc).1.status ≠ 500) :
    (e ∉ doc.eventos_participados →
      updateStatementSize
        (bsonObjectIDArray "eventos_participados" (doc.eventos_participados ++ [e]))
          ≤ maxBsonObjectSize ∧
      ParticipanteDoc.bsonSize
        { doc with eventos_participados := doc.eventos_participados ++ [e] }
          ≤ maxBsonObjectSize) ∧
    ((updateFieldsOf novo).len > 0 →
      updateStatementSize (updateFieldsOf novo).elements ≤ maxBsonObjectSize ∧
      ParticipanteDoc.bsonSize
        (setUpdateFields (updateFieldsOf novo)
          { doc with eventos_participados :=
              if e ∈ doc.eventos_participados then doc.eventos_participados
              else doc.eventos_participados ++ [e] }) ≤ maxBsonObjectSize) := by
  have hid := FindOne_by_id_of_mem st.participantes doc hnd hmem
  have hfields : ∀ (st2 : Store) (ex : Participante) (x : ParticipanteDoc),
      FindOne st2.participantes (fun d => d._id == ex.ID) = some x →
      (linkFields st2 novo ex).1.status ≠ 500 →
      (updateFieldsOf novo).len > 0 →
      updateStatementSize (updateFieldsOf novo).elements ≤ maxBsonObjectSize ∧
      (setUpdateFields (updateFieldsOf novo) x).bsonSize ≤ maxBsonObjectSize := by
    intro st2 ex x hx hst hlen
    cases herr : UpdateOneErr (updateStatementSize (updateFieldsOf novo).elements)
        ParticipanteDoc.bsonSize (fun d : ParticipanteDoc => d._id == ex.ID)
        (setUpdateFields (updateFieldsOf novo)) st2.participantes with
    | some err =>
      exfalso
      apply hst
      simp only [linkFields, hlen, if_true, herr]
    | none =>
      obtain ⟨hs, hr⟩ := (UpdateOneErr_none_iff _ _ _ _ _).mp herr
      exact ⟨hs, hr x hx⟩
  by_cases hin : e ∈ doc.eventos_participados
  · rw [linkExisting_found st novo e doc hin] at hok
    refine ⟨fun h => absurd hin h, ?_⟩
    simp only [hin, if_true]
    exact hfields st (doc.decodeInto Participante.zero) doc hid hok
  · cases herr : UpdateOneErr
        (updateStatementSize
          (bsonObjectIDArray "eventos_participados" (doc.eventos_participados ++ [e])))
        ParticipanteDoc.bsonSize (fun d => d._id == doc._id)
        (fun d => { d with eventos_participados := doc.eventos_participados ++ [e] })
        st.participantes with
    | some err =>
      exfalso
      apply hok
      have hf : foundIn e (doc.decodeInto Participante.zero).EventosParticipados = false := by
        cases hx : foundIn e (doc.decodeInto Participante.zero).EventosParticipados with
        | false => rfl
        | true => exact absurd ((foundIn_iff _ _).mp hx) hin
      have herr2 : UpdateOneErr
          (updateStatementSize (bsonObjectIDArray "eventos_participados"
            ((doc.decodeInto Participante.zero).EventosParticipados ++ [e])))
          ParticipanteDoc.bsonSize (fun d => d._id == (doc.decodeInto Participante.zero).ID)
          (fun d => { d with eventos_participados :=
            (doc.decodeInto Participante.zero).EventosParticipados ++ [e] })
          st.participantes = some err := herr
      simp only [linkExisting, hf, Bool.not_false, if_true, herr2]
    | none =>
      obtain ⟨hs, hr⟩ := (UpdateOneErr_none_iff _ _ _ _ _).mp herr
      rw [linkExisting_appended st novo e doc hin herr] at hok
      have hfind1 := FindOne_UpdateOne (fun d : ParticipanteDoc => d._id == doc._id)
        (fun d => { d with eventos_participados := doc.eventos_participados ++ [e] })
        (fun _ => rfl) st.participantes
      rw [hid] at hfind1
      refine ⟨fun _ => ⟨hs, hr doc hid⟩, ?_⟩
      simp only [hin, if_false]
      exact hfields _ _ _ hfind1 hok

/-- Where the payload's identifier plays no part, twice in a row: on a store
with exactly one event (and `_id` unique), when neither of two consecutive
create-or-link calls carrying the same email is refused by the store (neither
answers 500), the first returns a participant and the second answers 200 and
returns a participant with the same identifier and the same event list. -/
theorem createParticipante_twice (st : Store) (p1 p2 : Participante) (g1 g2 : ObjectID)
    (hwf : st.WF) (hone : st.eventos.length = 1) (hemail : p2.Email = p1.Email)
    (hok1 : (createParticipanteHandler st (some p1) g1).1.status ≠ 500)
    (hok2 : (createParticipanteHandler (createParticipanteHandler st (some p1) g1).2
      (some p2) g2).1.status ≠ 500) :
    ∃ q1 q2,
      (createParticipanteHandler st (some p1) g1).1.body = Body.participante q1 ∧
      (createParticipanteHandler (createParticipanteHandler st (some p1) g1).2 (some p2) g2).1
        = ⟨200, Body.participante q2⟩ ∧
      q2.ID = q1.ID ∧
      q2.EventosParticipados = q1.EventosParticipados ∧
      q2.EventosParticipados.length = q1.EventosParticipados.length := by
  have hne : st.eventos ≠ [] := by
    intro h
    rw [h] at hone
    simp at hone
  obtain ⟨latest, hl⟩ := FindOneLatest_exists st.eventos hne
  cases hf : FindOne st.participantes (fun d => d.email == p1.Email) with
  | some doc =>
    have hmem := (FindOne_some_mem _ _ _ hf).1
    have h1 := createParticipante_found st p1 g1 latest doc hl hf
    rw [h1] at hok1 hok2 ⊢
    obtain ⟨ha1, ha2⟩ := linkExisting_not_500 st p1 latest._id doc hwf.2 hmem hok1
    obtain ⟨hr1, hevs, hids, hfind⟩ :=
      linkExisting_accepted st p1 latest._id doc hwf.2 hmem ha1 ha2
    have hfind2 := hfind (fun d => d.email == p2.Email) (fun _ _ => rfl)
      (fun _ _ => rfl) (by rw [hemail]; exact hf)
    have hl2 : FindOneLatest (linkExisting st p1 latest._id doc).2.eventos = some latest := by
      rw [hevs]; exact hl
    have hnd2 : ((linkExisting st p1 latest._id doc).2.participantes.map
        (fun d => d._id)).Nodup := by
      rw [hids]; exact hwf.2
    have hmem2 := (FindOne_some_mem _ _ _ hfind2).1
    have h2 := createParticipante_found _ p2 g2 latest _ hl2 hfind2
    rw [h2] at hok2 ⊢
    obtain ⟨hb1, hb2⟩ := linkExisting_not_500 _ p2 latest._id _ hnd2 hmem2 hok2
    obtain ⟨hr2, _, _, _⟩ := linkExisting_accepted _ p2 latest._id _ hnd2 hmem2 hb1 hb2
    rw [hr1, hr2]
    refine ⟨_, _, rfl, rfl, ?_, ?_, ?_⟩
    · simp [applyUpdateFields_of, setUpdateFields_of, ParticipanteDoc.decodeInto]
    · by_cases hin : latest._id ∈ doc.eventos_participados <;>
        simp [applyUpdateFields_of, setUpdateFields_of, hin]
    · by_cases hin : latest._id ∈ doc.eventos_participados <;>
        simp [applyUpdateFields_of, setUpdateFields_of, hin]
  | none =>
    have hdec : latest.decode.ID = latest._id := rfl
    rcases InsertOneParticipante_cases st.participantes
      { p1 with EventosParticipados := [latest._id] } g1 with ⟨err, herr⟩ | ⟨hins, hno, _⟩
    · exfalso
      apply hok1
      simp only [createParticipanteHandler, hl, hf, hdec, herr]
    · have h1 : createParticipanteHandler st (some p1) g1 =
          (⟨201, Body.participante
              { p1 with ID := insertedID p1.ID g1, EventosParticipados := [latest._id] }⟩,
           { st with participantes := st.participantes ++
              [({ p1 with EventosParticipados := [latest._id] } : Participante).toDoc
                (insertedID p1.ID g1)] }) := by
        simp only [createParticipanteHandler, hl, hf, hdec, hins]
      rw [h1] at hok2 ⊢
      have hfind2 := FindOne_append_new st.participantes
          (({ p1 with EventosParticipados := [latest._id] } : Participante).toDoc
            (insertedID p1.ID g1)) (fun d => d.email == p2.Email)
          (by rw [hemail]; exact hf) (by simp [hemail, Participante.toDoc])
      have hnd2 : ((st.participantes ++
          [({ p1 with EventosParticipados := [latest._id] } : Participante).toDoc
            (insertedID p1.ID g1)]).map (fun d => d._id)).Nodup := by
        rw [List.map_append, List.nodup_append]
        refine ⟨hwf.2, List.nodup_singleton _, ?_⟩
        intro a ha hb
        simp only [List.map_cons, List.map_nil, List.mem_singleton, Participante.toDoc] at hb
        obtain ⟨d, hd, hdid⟩ := List.mem_map.mp ha
        exact hno d hd (hdid.trans hb)
      have hmem2 := (FindOne_some_mem _ _ _ hfind2).1
      have h2 := createParticipante_found
        { st with participantes := st.participantes ++
            [({ p1 with EventosParticipados := [latest._id] } : Participante).toDoc
              (insertedID p1.ID g1)] } p2 g2 latest _ hl hfind2
      rw [h2] at hok2 ⊢
      obtain ⟨hb1, hb2⟩ := linkExisting_not_500
        { st with participantes := st.participantes ++
            [({ p1 with EventosParticipados := [latest._id] } : Participante).toDoc
              (insertedID p1.ID g1)] } p2 latest._id _ hnd2 hmem2 hok2
      obtain ⟨hr2, _, _, _⟩ := linkExisting_accepted
        { st with participantes := st.participantes ++
            [({ p1 with EventosParticipados := [latest._id] } : Participante).toDoc
              (insertedID p1.ID g1)] } p2 latest._id _ hnd2 hmem2 hb1 hb2
      rw [hr2]
      refine ⟨_, _, rfl, rfl, ?_, ?_, ?_⟩ <;>
        simp [applyUpdateFields_of, Participante.toDoc, ParticipanteDoc.decodeInto]

/-- The sample store with one event and a new email submitted twice without
identifier: 201 under the generated identifier 50, then 200 with the same
identifier and the list `[1]`. -/
theorem createParticipante_twice_sample :
    (createParticipanteHandler exStoreOne (some exPayloadNew) 50).1 =
      ⟨201, Body.participante { exPayloadNew with ID := 50, EventosParticipados := [1] }⟩ ∧
    (createParticipanteHandler (createParticipanteHandler exStoreOne (some exPayloadNew) 50).2
      (some exPayloadNew) 51).1
      = ⟨200, Body.participante { exPayloadNew with ID := 50, EventosParticipados := [1] }⟩ ∧
    ∃ q1 q2,
      (createParticipanteHandler exStoreOne (some exPayloadNew) 50).1.body
        = Body.participante q1 ∧
      (createParticipanteHandler (createParticipanteHandler exStoreOne (some exPayloadNew) 50).2
        (some exPayloadNew) 51).1 = ⟨200, Body.participante q2⟩ ∧
      q2.ID = q1.ID ∧
      q2.EventosParticipados = q1.EventosParticipados ∧
      q2.EventosParticipados.length = q1.EventosParticipados.length :=
  ⟨by decide, by decide,
   createParticipante_twice exStoreOne exPayloadNew exPayloadNew 50 51
     (by simp [Store.WF, exStoreOne]) (by decide) rfl (by decide) (by decide)⟩

/-- C4, as stated, fails: the stored participant is found by email and event 2
is the latest, but the payload carries a picture of 17,000,000 bytes; the event
list is stored as `[1, 2]`, then the store refuses the update of the picture
and the handler answers 500: no participant, and so no event list, is
returned. -/
theorem oversize_picture_link_answers_500 :
    exStoreTwo.WF ∧
    FindOneLatest exStoreTwo.eventos = some exEvento2 ∧
    FindOne exStoreTwo.participantes (fun d => d.email == exPayloadBigPicture.Email)
      = some exParticipanteDoc ∧
    strLen exPayloadBigPicture.ProfilePictureBase64 > maxBsonObjectSize ∧
    (createParticipanteHandler exStoreTwo (some exPayloadBigPicture) 50).1 =
      ⟨500, Body.storeError StoreError.documentTooLarge⟩ ∧
    (createParticipanteHandler exStoreTwo (some exPayloadBigPicture) 50).2.participantes =
      [{ exParticipanteDoc with eventos_participados := [1, 2] }] := by
  have hl : FindOneLatest exStoreTwo.eventos = some exEvento2 := by decide
  have hf : FindOne exStoreTwo.participantes (fun d => d.email == exPayloadBigPicture.Email)
      = some exParticipanteDoc := by decide
  have hne : exPayloadBigPicture.ProfilePictureBase64 ≠ "" := exBigString_ne
  have hsize : strLen exPayloadBigPicture.ProfilePictureBase64 = 17000000 := exBigString_strLen
  have hlen : (updateFieldsOf exPayloadBigPicture).len > 0 := by
    simp [UpdateFields.len, updateFieldsOf, hne]
  have hbig : updateStatementSize (updateFieldsOf exPayloadBigPicture).elements
      > maxBsonObjectSize := by
    have h := picture_le_statement exPayloadBigPicture hne
    rw [hsize] at h
    have hmax : maxBsonObjectSize = 16777216 := rfl
    omega
  have happ := linkExisting_appended exStoreTwo exPayloadBigPicture exEvento2._id
    exParticipanteDoc (by decide) (by decide)
  rw [createParticipante_found exStoreTwo exPayloadBigPicture 50 exEvento2 exParticipanteDoc
    hl hf, happ, linkFields_refused _ _ _ hlen hbig]
  refine ⟨by simp [Store.WF, exStoreTwo, exEvento1, exEvento2], hl, hf, ?_, rfl, by decide⟩
  rw [hsize]
  decide

/-- C4, amended: on a store that keeps `_id` unique, when create-or-link finds
a participant by the payload's email, with stored event list `L`, `e` is the
latest event's identifier, and the store accepts the updates the handler sends
(each statement and each updated document within `maxBsonObjectSize`), the
event list of the participant returned and the one stored afterwards (looked
up by identifier or by email) are both `L` when `e` occurs in `L` and
`L ++ [e]` otherwise; `L` is a prefix of the result, and the result has no
duplicate when `L` has none. -/
theorem createParticipante_existing_event_list (st : Store) (p : Participante) (gen : ObjectID)
    (latest : EventoDoc) (doc : ParticipanteDoc) (hwf : st.WF)
    (hl : FindOneLatest st.eventos = some latest)
    (hf : FindOne st.participantes (fun d => d.email == p.Email) = some doc)
    (h1 : latest._id ∉ doc.eventos_participados →
      updateStatementSize
        (bsonObjectIDArray "eventos_participados" (doc.eventos_participados ++ [latest._id]))
          ≤ maxBsonObjectSize ∧
      ParticipanteDoc.bsonSize
        { doc with eventos_participados := doc.eventos_participados ++ [latest._id] }
          ≤ maxBsonObjectSize)
    (h2 : (updateFieldsOf p).len > 0 →
      updateStatementSize (updateFieldsOf p).elements ≤ maxBsonObjectSize ∧
      ParticipanteDoc.bsonSize
        (setUpdateFields (updateFieldsOf p)
          { doc with eventos_participados :=
              if latest._id ∈ doc.eventos_participados then doc.eventos_participados
              else doc.eventos_participados ++ [latest._id] }) ≤ maxBsonObjectSize) :
    ∃ q d',
      (createParticipanteHandler st (some p) gen).1 = ⟨200, Body.participante q⟩ ∧
      FindOne (createParticipanteHandler st (some p) gen).2.participantes
        (fun d => d._id == doc._id) = some d' ∧
      FindOne (createParticipanteHandler st (some p) gen).2.participantes
        (fun d => d.email == p.Email) = some d' ∧
      q.ID = doc._id ∧ d'._id = doc._id ∧
      q.EventosParticipados =
        (if latest._id ∈ doc.eventos_participados then doc.eventos_participados
         else doc.eventos_participados ++ [latest._id]) ∧
      d'.eventos_participados = q.EventosParticipados ∧
      doc.eventos_participados <+: q.EventosParticipados ∧
      (doc.eventos_participados.Nodup → q.EventosParticipados.Nodup) := by
  have hmem : doc ∈ st.participantes := (FindOne_some_mem _ _ _ hf).1
  have hid := FindOne_by_id_of_mem st.participantes doc hwf.2 hmem
  obtain ⟨hresp, _, _, hfind⟩ := linkExisting_accepted st p latest._id doc hwf.2 hmem h1 h2
  have hfid := hfind (fun d => d._id == doc._id) (fun _ _ => rfl) (fun _ _ => rfl) hid
  have hfem := hfind (fun d => d.email == p.Email) (fun _ _ => rfl) (fun _ _ => rfl) hf
  rw [createParticipante_found st p gen latest doc hl hf]
  refine ⟨_, _, hresp, hfid, hfem, rfl, rfl, rfl, rfl, ?_, ?_⟩
  · show doc.eventos_participados <+:
      (if latest._id ∈ doc.eventos_participados then doc.eventos_participados
       else doc.eventos_participados ++ [latest._id])
    by_cases hin : latest._id ∈ doc.eventos_participados
    · simp [hin]
    · simp only [hin, if_false]
      exact List.prefix_append _ _
  · intro hnd
    show (if latest._id ∈ doc.eventos_participados then doc.eventos_participados
       else doc.eventos_participados ++ [latest._id]).Nodup
    by_cases hin : latest._id ∈ doc.eventos_participados
    · simpa [hin] using hnd
    · simp only [hin, if_false]
      rw [List.nodup_append]
      refine ⟨hnd, List.nodup_singleton _, ?_⟩
      intro a ha hb
      rw [List.mem_singleton] at hb
      exact hin (hb ▸ ha)

/-- The stored participant, linked to event 1, submitted again when event 2 is the
latest: the list becomes `[1, 2]`. -/
theorem createParticipante_existing_event_list_witness :
    exStoreTwo.WF ∧
    (createParticipanteHandler exStoreTwo (some exPayloadAna) 50).1 =
      ⟨200, Body.participante
        { ID := 7, Nome := "Ana", Email := "a@x.com", Empresa := "Acme",
          ProfilePictureBase64 := "", EventosParticipados := [1, 2] }⟩ ∧
    ∃ q d',
      (createParticipanteHandler exStoreTwo (some exPayloadAna) 50).1
        = ⟨200, Body.participante q⟩ ∧
      FindOne (createParticipanteHandler exStoreTwo (some exPayloadAna) 50).2.participantes
        (fun d => d._id == exParticipanteDoc._id) = some d' ∧
      FindOne (createParticipanteHandler exStoreTwo (some exPayloadAna) 50).2.participantes
        (fun d => d.email == exPayloadAna.Email) = some d' ∧
      q.ID = exParticipanteDoc._id ∧ d'._id = exParticipanteDoc._id ∧
      q.EventosParticipados =
        (if exEvento2._id ∈ exParticipanteDoc.eventos_participados
         then exParticipanteDoc.eventos_participados
         else exParticipanteDoc.eventos_participados ++ [exEvento2._id]) ∧
      d'.eventos_participados = q.EventosParticipados ∧
      exParticipanteDoc.eventos_participados <+: q.EventosParticipados ∧
      (exParticipanteDoc.eventos_participados.Nodup → q.EventosParticipados.Nodup) :=
  ⟨by simp [Store.WF, exStoreTwo, exEvento1, exEvento2], by decide,
   createParticipante_existing_event_list exStoreTwo exPayloadAna 50 exEvento2
     exParticipanteDoc (by simp [Store.WF, exStoreTwo, exEvento1, exEvento2])
     (by decide) (by decide) (by decide) (by decide)⟩

/-- C5, as stated, fails: the stored participant, who has no company, is found
by email, but the payload carries a company of 17,000,000 bytes; the store
refuses the update, the handler answers 500, and the stored company is not the
payload's: the store is as it was. -/
theorem oversize_company_link_not_written :
    exStoreOne.WF ∧
    FindOneLatest exStoreOne.eventos = some exEvento1 ∧
    FindOne exStoreOne.participantes (fun d => d.email == exPayloadBigCompany.Email)
      = some exParticipanteDoc ∧
    exPayloadBigCompany.Empresa ≠ "" ∧
    strLen exPayloadBigCompany.Empresa > maxBsonObjectSize ∧
    (createParticipanteHandler exStoreOne (some exPayloadBigCompany) 50).1 =
      ⟨500, Body.storeError StoreError.documentTooLarge⟩ ∧
    (createParticipanteHandler exStoreOne (some exPayloadBigCompany) 50).2 = exStoreOne ∧
    exStoreOne.participantes.map (fun d => d.empresa) = [none] := by
  have hl : FindOneLatest exStoreOne.eventos = some exEvento1 := by decide
  have hf : FindOne exStoreOne.participantes (fun d => d.email == exPayloadBigCompany.Email)
      = some exParticipanteDoc := by decide
  have hne : exPayloadBigCompany.Empresa ≠ "" := exBigString_ne
  have hsize : strLen exPayloadBigCompany.Empresa = 17000000 := exBigString_strLen
  have hlen : (updateFieldsOf exPayloadBigCompany).len > 0 := by
    simp [UpdateFields.len, updateFieldsOf, hne]
  have hbig : updateStatementSize (updateFieldsOf exPayloadBigCompany).elements
      > maxBsonObjectSize := by
    have h := company_le_statement exPayloadBigCompany hne
    rw [hsize] at h
    have hmax : maxBsonObjectSize = 16777216 := rfl
    omega
  rw [createParticipante_found exStoreOne exPayloadBigCompany 50 exEvento1 exParticipanteDoc
    hl hf, linkExisting_found exStoreOne exPayloadBigCompany exEvento1._id exParticipanteDoc
    (by decide), linkFields_refused _ _ _ hlen hbig]
  refine ⟨by simp [Store.WF, exStoreOne], hl, hf, hne, ?_, rfl, rfl, by decide⟩
  rw [hsize]
  decide

/-- C5, amended: on a store that keeps `_id` unique, when create-or-link finds
a participant by the payload's email and the store accepts the updates the
handler sends (each statement and each updated document within
`maxBsonObjectSize`), the stored company becomes the payload's when that is
not empty and is unchanged when it is empty, and independently so for the
profile picture; identifier, name and email are unchanged whatever the payload
carries; and the participant returned is the stored document read back, so it
carries these values. -/
theorem createParticipante_existing_fields (st : Store) (p : Participante) (gen : ObjectID)
    (latest : EventoDoc) (doc : ParticipanteDoc) (hwf : st.WF)
    (hl : FindOneLatest st.eventos = some latest)
    (hf : FindOne st.participantes (fun d => d.email == p.Email) = some doc)
    (h1 : latest._id ∉ doc.eventos_participados →
      updateStatementSize
        (bsonObjectIDArray "eventos_participados" (doc.eventos_participados ++ [latest._id]))
          ≤ maxBsonObjectSize ∧
      ParticipanteDoc.bsonSize
        { doc with eventos_participados := doc.eventos_participados ++ [latest._id] }
          ≤ maxBsonObjectSize)
    (h2 : (updateFieldsOf p).len > 0 →
      updateStatementSize (updateFieldsOf p).elements ≤ maxBsonObjectSize ∧
      ParticipanteDoc.bsonSize
        (setUpdateFields (updateFieldsOf p)
          { doc with eventos_participados :=
              if latest._id ∈ doc.eventos_participados then doc.eventos_participados
              else doc.eventos_participados ++ [latest._id] }) ≤ maxBsonObjectSize) :
    ∃ q d',
      (createParticipanteHandler st (some p) gen).1 = ⟨200, Body.participante q⟩ ∧
      FindOne (createParticipanteHandler st (some p) gen).2.participantes
        (fun d => d._id == doc._id) = some d' ∧
      d'.empresa = (if p.Empresa ≠ "" then some p.Empresa else doc.empresa) ∧
      d'.profile_picture_base64 =
        (if p.ProfilePictureBase64 ≠ "" then some p.ProfilePictureBase64
         else doc.profile_picture_base64) ∧
      d'._id = doc._id ∧ d'.nome = doc.nome ∧ d'.email = doc.email ∧
      q = d'.decodeInto Participante.zero ∧
      q.Empresa =
        (if p.Empresa ≠ "" then p.Empresa else (doc.decodeInto Participante.zero).Empresa) ∧
      q.ProfilePictureBase64 =
        (if p.ProfilePictureBase64 ≠ "" then p.ProfilePictureBase64
         else (doc.decodeInto Participante.zero).ProfilePictureBase64) ∧
      q.ID = doc._id ∧ q.Nome = doc.nome ∧ q.Email = doc.email := by
  have hmem : doc ∈ st.participantes := (FindOne_some_mem _ _ _ hf).1
  have hid := FindOne_by_id_of_mem st.participantes doc hwf.2 hmem
  obtain ⟨hresp, _, _, hfind⟩ := linkExisting_accepted st p latest._id doc hwf.2 hmem h1 h2
  have hfid := hfind (fun d => d._id == doc._id) (fun _ _ => rfl) (fun _ _ => rfl) hid
  rw [createParticipante_found st p gen latest doc hl hf]
  rw [setUpdateFields_of] at hfid
  rw [applyUpdateFields_of] at hresp
  refine ⟨_, _, hresp, hfid, rfl, rfl, rfl, rfl, rfl, ?_, rfl, rfl, rfl, rfl, rfl⟩
  by_cases h1 : p.ProfilePictureBase64 = "" <;> by_cases h2 : p.Empresa = "" <;>
    simp [ParticipanteDoc.decodeInto, Participante.zero, h1, h2]

/-- The stored participant submitted again with a company and no picture: the
company is written, the picture stays absent, name and identifier stay. -/
theorem createParticipante_existing_fields_witness :
    exStoreTwo.WF ∧
    (createParticipanteHandler exStoreTwo (some exPayloadAna) 50).2.participantes =
      [{ _id := 7, nome := "Ana", email := "a@x.com", empresa := some "Acme",
         profile_picture_base64 := none, eventos_participados := [1, 2] }] ∧
    ∃ q d',
      (createParticipanteHandler exStoreTwo (some exPayloadAna) 50).1
        = ⟨200, Body.participante q⟩ ∧
      FindOne (createParticipanteHandler exStoreTwo (some exPayloadAna) 50).2.participantes
        (fun d => d._id == exParticipanteDoc._id) = some d' ∧
      d'.empresa =
        (if exPayloadAna.Empresa ≠ "" then some exPayloadAna.Empresa
         else exParticipanteDoc.empresa) ∧
      d'.profile_picture_base64 =
        (if exPayloadAna.ProfilePictureBase64 ≠ "" then some exPayloadAna.ProfilePictureBase64
         else exParticipanteDoc.profile_picture_base64) ∧
      d'._id = exParticipanteDoc._id ∧ d'.nome = exParticipanteDoc.nome ∧
      d'.email = exParticipanteDoc.email ∧
      q = d'.decodeInto Participante.zero ∧
      q.Empresa =
        (if exPayloadAna.Empresa ≠ "" then exPayloadAna.Empresa
         else (exParticipanteDoc.decodeInto Participante.zero).Empresa) ∧
      q.ProfilePictureBase64 =
        (if exPayloadAna.ProfilePictureBase64 ≠ "" then exPayloadAna.ProfilePictureBase64
         else (exParticipanteDoc.decodeInto Participante.zero).ProfilePictureBase64) ∧
      q.ID = exParticipanteDoc._id ∧ q.Nome = exParticipanteDoc.nome ∧
      q.Email = exParticipanteDoc.email :=
  ⟨by simp [Store.WF, exStoreTwo, exEvento1, exEvento2], by decide,
   createParticipante_existing_fields exStoreTwo exPayloadAna 50 exEvento2
     exParticipanteDoc (by simp [Store.WF, exStoreTwo, exEvento1, exEvento2])
     (by decide) (by decide) (by decide) (by decide)⟩

/-! ## Participant update and list-by-event -/

/-- C6: whatever the path parameter and the body (malformed, or carrying any
event list), and whatever the outcome, `updateParticipanteHandler` leaves the
identifier and the event list of every stored participant, in order, as they
were, and the events collection too; and when it answers 200 the participant
returned carries the event list stored for the addressed participant, before
and after, not the body's. -/
theorem updateParticipante_keeps_event_lists (st : Store) (idParam : String)
    (body : Option Participante) :
    (updateParticipanteHandler st idParam body).2.participantes.map
        (fun d => (d._id, d.eventos_participados))
      = st.participantes.map (fun d => (d._id, d.eventos_participados)) ∧
    (updateParticipanteHandler st idParam body).2.eventos = st.eventos ∧
    (∀ q, (updateParticipanteHandler st idParam body).1 = ⟨200, Body.participante q⟩ →
      ∃ objID d d', ObjectIDFromHex idParam = some objID ∧
        FindOne st.participantes (fun x => x._id == objID) = some d ∧
        FindOne (updateParticipanteHandler st idParam body).2.participantes
          (fun x => x._id == objID) = some d' ∧
        q.EventosParticipados = d.eventos_participados ∧
        q.EventosParticipados = d'.eventos_participados) := by
  unfold updateParticipanteHandler
  cases hp : ObjectIDFromHex idParam with
  | none => simp
  | some objID =>
    cases body with
    | none => simp
    | some b =>
      have hmap := UpdateOne_map (fun d : ParticipanteDoc => d._id == objID) (setParticipante b)
        (fun d => (d._id, d.eventos_participados)) (fun _ => rfl) st.participantes
      have hfind := FindOne_UpdateOne (fun d : ParticipanteDoc => d._id == objID)
        (setParticipante b) (fun _ => rfl) st.participantes
      cases herr : UpdateOneErr (updateStatementSize (setParticipanteElements b))
          ParticipanteDoc.bsonSize (fun d => d._id == objID) (setParticipante b)
          st.participantes with
      | some err => simp [herr]
      | none =>
        simp only [herr]
        by_cases hz : (UpdateOne (fun d : ParticipanteDoc => d._id == objID)
            (setParticipante b) st.participantes).1 = 0
        · simp [hz, hmap]
        · cases hf : FindOne st.participantes (fun d => d._id == objID) with
          | none =>
            rw [hf] at hfind
            simp [hz, hmap, hfind]
          | some d =>
            rw [hf] at hfind
            simp only [Option.map_some'] at hfind
            simp only [hz, if_false, hfind, hmap, true_and]
            intro q hq
            refine ⟨objID, d, setParticipante b d, rfl, hf, hfind, ?_, ?_⟩
            · simp only [Response.mk.injEq, Body.participante.injEq, true_and] at hq
              rw [← hq]
              rfl
            · simp only [Response.mk.injEq, Body.participante.injEq, true_and] at hq
              rw [← hq]
              rfl

/-- An update of the stored participant whose body carries the list `[5, 6]`: 200,
and the list returned and stored is still `[1]`. -/
theorem updateParticipante_keeps_event_lists_witness :
    (updateParticipanteHandler exStoreOne "000000000000000000000007" (some exUpdateBody)).1 =
      ⟨200, Body.participante
        { ID := 7, Nome := "Ana Maria", Email := "ana@x.com", Empresa := "Acme",
          ProfilePictureBase64 := "", EventosParticipados := [1] }⟩ ∧
    (updateParticipanteHandler exStoreOne "000000000000000000000007"
        (some exUpdateBody)).2.participantes.map (fun d => (d._id, d.eventos_participados))
      = exStoreOne.participantes.map (fun d => (d._id, d.eventos_participados)) ∧
    ∃ objID d d', ObjectIDFromHex "000000000000000000000007" = some objID ∧
      FindOne exStoreOne.participantes (fun x => x._id == objID) = some d ∧
      FindOne (updateParticipanteHandler exStoreOne "000000000000000000000007"
        (some exUpdateBody)).2.participantes (fun x => x._id == objID) = some d' ∧
      [1] = d.eventos_participados ∧ [1] = d'.eventos_participados :=
  ⟨by decide,
   (updateParticipante_keeps_event_lists exStoreOne "000000000000000000000007"
      (some exUpdateBody)).1,
   (updateParticipante_keeps_event_lists exStoreOne "000000000000000000000007"
      (some exUpdateBody)).2.2
      { ID := 7, Nome := "Ana Maria", Email := "ana@x.com", Empresa := "Acme",
        ProfilePictureBase64 := "", EventosParticipados := [1] } (by decide)⟩

/-- For a well-formed identifier that no stored participant's event list holds,
list-by-event answers 200 and the slice it encodes is the nil slice it declared:
nothing was appended to it. -/
theorem getParticipantesByEvent_none_linked (st : Store) (eventIdParam : String)
    (eventObjID : ObjectID) (hp : ObjectIDFromHex eventIdParam = some eventObjID)
    (hno : ∀ d ∈ st.participantes, eventObjID ∉ d.eventos_participados) :
    getParticipantesByEventHandler st eventIdParam = (⟨200, Body.participantes none⟩, st) := by
  have hfilter : Find st.participantes (fun d => d.eventos_participados.contains eventObjID)
      = [] := by
    unfold Find
    rw [List.filter_eq_nil_iff]
    intro d hd
    simpa using hno d hd
  simp only [getParticipantesByEventHandler, hp]
  rw [hfilter]
  rfl

/-- C7 on the code: with no participant stored, list-by-event on a well-formed
identifier answers 200 with the nil slice, which `encoding/json` writes as
`null`, not as the empty array. -/
theorem getParticipantesByEvent_empty_is_null :
    ObjectIDFromHex "000000000000000000000001" = some 1 ∧
    (∀ d ∈ exStoreEmpty.participantes, (1 : ObjectID) ∉ d.eventos_participados) ∧
    getParticipantesByEventHandler exStoreEmpty "000000000000000000000001"
      = (⟨200, Body.participantes none⟩, exStoreEmpty) ∧
    Slice.jsonShape (none : Slice Participante) = JSONShape.null ∧
    Slice.jsonShape (none : Slice Participante) ≠ JSONShape.array 0 := by
  decide

/-! ## Events -/

/-- A timestamp of whole milliseconds is stored and read back unchanged. -/
theorem DateTime_roundtrip (t : Time) (h : (1000000 : Int) ∣ t.unixNano) :
    DateTimeToTime (NewDateTimeFromTime t) = t := by
  unfold DateTimeToTime NewDateTimeFromTime
  rw [Int.fdiv_eq_ediv _ (by decide), Int.ediv_mul_cancel h]

/-- An event document is larger than its description. -/
theorem descricao_le_bsonSize (d : EventoDoc) : strLen d.descricao ≤ d.bsonSize := by
  unfold EventoDoc.bsonSize bsonDocument bsonElement bsonString
  omega

/-- An event update statement is larger than the description it sets. -/
theorem descricao_le_statement (e : Evento) :
    strLen e.Descricao ≤ updateStatementSize (setEventoElements e) := by
  refine Nat.le_trans ?_ (le_updateStatementSize _)
  unfold setEventoElements bsonElement bsonString
  omega

/-- Create answers 500 and stores nothing when the store refuses the document
for its size. -/
theorem createEvento_refused (st : Store) (p : Evento) (gen : ObjectID)
    (h : (p.toDoc (insertedID p.ID gen)).bsonSize > maxBsonObjectSize) :
    createEventoHandler st (some p) gen =
      (⟨500, Body.storeError StoreError.documentTooLarge⟩, st) := by
  simp [createEventoHandler, InsertOneEvento, h]

/-- Event Update answers 500 and writes nothing when the store refuses the
statement for its size, whether or not the identifier is a stored event's. -/
theorem updateEvento_refused (st : Store) (idParam : String) (objID : ObjectID) (body : Evento)
    (hparse : ObjectIDFromHex idParam = some objID)
    (h : updateStatementSize (setEventoElements body) > maxBsonObjectSize) :
    updateEventoHandler st idParam (some body) =
      (⟨500, Body.storeError StoreError.documentTooLarge⟩, st) := by
  simp only [updateEventoHandler, hparse, UpdateOneErr_of_stmt _ _ _ _ _ h]

/-- C8, as stated, fails. On the date: an event created with a timestamp one
nanosecond past a whole millisecond is read back, under the identifier Create
returned, with the timestamp of the whole millisecond, which is not the
payload's. On the size: for a payload whose description has 17,000,000 bytes
the store refuses the document, Create answers 500 and nothing is stored. -/
theorem created_date_read_back_truncated :
    ((createEventoHandler exStoreEmpty (some exEventoPayload) 1).1 =
      ⟨201, Body.evento { exEventoPayload with ID := 1 }⟩ ∧
    (getEventoHandler (createEventoHandler exStoreEmpty (some exEventoPayload) 1).2
      "000000000000000000000001").1 =
      ⟨200, Body.evento { exEventoPayload with ID := 1, Data := ⟨1700000000000000000⟩ }⟩ ∧
    (⟨1700000000000000000⟩ : Time) ≠ exEventoPayload.Data) ∧
    (strLen exEventoPayloadBig.Descricao > maxBsonObjectSize ∧
    createEventoHandler exStoreEmpty (some exEventoPayloadBig) 1 =
      (⟨500, Body.storeError StoreError.documentTooLarge⟩, exStoreEmpty)) := by
  have hsize : strLen exEventoPayloadBig.Descricao = 17000000 := exBigString_strLen
  have hmax : maxBsonObjectSize = 16777216 := rfl
  have hbig : (exEventoPayloadBig.toDoc (insertedID exEventoPayloadBig.ID 1)).bsonSize
      > maxBsonObjectSize := by
    have h := descricao_le_bsonSize (exEventoPayloadBig.toDoc (insertedID exEventoPayloadBig.ID 1))
    have hd : (exEventoPayloadBig.toDoc (insertedID exEventoPayloadBig.ID 1)).descricao
        = exEventoPayloadBig.Descricao := rfl
    rw [hd, hsize] at h
    omega
  refine ⟨by decide, ?_, createEvento_refused exStoreEmpty exEventoPayloadBig 1 hbig⟩
  rw [hsize, hmax]
  decide

/-- C8, amended: for a payload that carries no identifier, when the store
accepts the document (it is within `maxBsonObjectSize`) and the identifier the
driver generates is not a stored event's, Create answers 201 with the payload
under the generated identifier, and Get on a path parameter denoting that
identifier answers 200 with a document whose identifier is the one Create
returned, whose name, description, address, background colour and text colour
are the payload's, and whose date is the payload's rounded down to whole
milliseconds (the payload's itself when that is a whole number of
milliseconds). -/
theorem createEvento_then_get (st : Store) (p : Evento) (gen : ObjectID) (idParam : String)
    (hnoid : p.ID = 0)
    (hfresh : ∀ d ∈ st.eventos, d._id ≠ gen)
    (hfit : (p.toDoc gen).bsonSize ≤ maxBsonObjectSize)
    (hparam : ObjectIDFromHex idParam = some gen) :
    (createEventoHandler st (some p) gen).1 = ⟨201, Body.evento { p with ID := gen }⟩ ∧
    (getEventoHandler (createEventoHandler st (some p) gen).2 idParam).1 =
      ⟨200, Body.evento
        { ID := gen, Nome := p.Nome, Descricao := p.Descricao,
          Data := ⟨p.Data.unixNano.fdiv 1000000 * 1000000⟩, Endereco := p.Endereco,
          BackgroundColor := p.BackgroundColor, TextColor := p.TextColor }⟩ ∧
    ((1000000 : Int) ∣ p.Data.unixNano →
      (getEventoHandler (createEventoHandler st (some p) gen).2 idParam).1 =
        ⟨200, Body.evento { p with ID := gen }⟩) := by
  have hins : insertedID p.ID gen = gen := by
    simp [insertedID, ObjectID.IsZero, hnoid]
  have hany : (st.eventos.any (fun d => d._id == gen)) = false := by
    rw [List.any_eq_false]
    intro d hd
    simpa using hfresh d hd
  have hnone : FindOne st.eventos (fun d => d._id == gen) = none := by
    rw [FindOne_none]
    intro d hd
    simpa using hfresh d hd
  have hfind := FindOne_append_new st.eventos (p.toDoc gen)
    (fun d => d._id == gen) hnone (by simp [Evento.toDoc])
  have hcreate : createEventoHandler st (some p) gen =
      (⟨201, Body.evento { p with ID := gen }⟩,
       { st with eventos := st.eventos ++ [p.toDoc gen] }) := by
    simp only [createEventoHandler, InsertOneEvento, hins, hany, Nat.not_lt.mpr hfit,
      gt_iff_lt, if_false, Bool.false_eq_true]
  have hget : (getEventoHandler (createEventoHandler st (some p) gen).2 idParam).1 =
      ⟨200, Body.evento
        { ID := gen, Nome := p.Nome, Descricao := p.Descricao,
          Data := ⟨p.Data.unixNano.fdiv 1000000 * 1000000⟩, Endereco := p.Endereco,
          BackgroundColor := p.BackgroundColor, TextColor := p.TextColor }⟩ := by
    rw [hcreate]
    simp only [getEventoHandler, hparam, hfind]
    rfl
  refine ⟨by rw [hcreate], hget, ?_⟩
  intro hdvd
  rw [hget]
  have hrt := DateTime_roundtrip p.Data hdvd
  unfold DateTimeToTime NewDateTimeFromTime at hrt
  rw [hrt]

/-- Event 2 of the samples, created on the store with event 1 from a payload of
whole milliseconds under the generated identifier 2, and read back through the
path parameter `000000000000000000000002`: Get returns the payload itself
under that identifier. -/
theorem createEvento_then_get_witness :
    exEvento2Payload.ID = 0 ∧
    (∀ d ∈ exStoreOne.eventos, d._id ≠ 2) ∧
    (exEvento2Payload.toDoc 2).bsonSize ≤ maxBsonObjectSize ∧
    ObjectIDFromHex "000000000000000000000002" = some 2 ∧
    (1000000 : Int) ∣ exEvento2Payload.Data.unixNano ∧
    (createEventoHandler exStoreOne (some exEvento2Payload) 2).1 =
      ⟨201, Body.evento { exEvento2Payload with ID := 2 }⟩ ∧
    (getEventoHandler (createEventoHandler exStoreOne (some exEvento2Payload) 2).2
      "000000000000000000000002").1 =
      ⟨200, Body.evento
        { ID := 2, Nome := exEvento2Payload.Nome, Descricao := exEvento2Payload.Descricao,
          Data := ⟨exEvento2Payload.Data.unixNano.fdiv 1000000 * 1000000⟩,
          Endereco := exEvento2Payload.Endereco,
          BackgroundColor := exEvento2Payload.BackgroundColor,
          TextColor := exEvento2Payload.TextColor }⟩ ∧
    (getEventoHandler (createEventoHandler exStoreOne (some exEvento2Payload) 2).2
      "000000000000000000000002").1 =
      ⟨200, Body.evento { exEvento2Payload with ID := 2 }⟩ :=
  ⟨by decide, by decide, by decide, by decide, by decide,
   (createEvento_then_get exStoreOne exEvento2Payload 2 "000000000000000000000002"
     (by decide) (by decide) (by decide) (by decide)).1,
   (createEvento_then_get exStoreOne exEvento2Payload 2 "000000000000000000000002"
     (by decide) (by decide) (by decide) (by decide)).2.1,
   (createEvento_then_get exStoreOne exEvento2Payload 2 "000000000000000000000002"
     (by decide) (by decide) (by decide) (by decide)).2.2 (by decide)⟩

/-- C9, as stated, fails. After a successful update of event 1 with a body
whose timestamp is one nanosecond past a whole millisecond and whose colours
are new, Get returns the timestamp of the whole millisecond and the colours
stored before, not the body's date and colours. And for a body whose
description has 17,000,000 bytes the store refuses the statement: Update
answers 500, neither 200 nor 404, on the identifier of the stored event 1 and
on the identifier 2 of no stored event, and writes nothing. -/
theorem updated_date_and_colors_read_back_differ :
    ((updateEventoHandler exStoreOne "000000000000000000000001" (some exEventoBody)).1.status
      = 200 ∧
    (getEventoHandler
      (updateEventoHandler exStoreOne "000000000000000000000001" (some exEventoBody)).2
      "000000000000000000000001").1 =
      ⟨200, Body.evento
        { ID := 1, Nome := "Renamed", Descricao := "changed", Data := ⟨1700000200000000000⟩,
          Endereco := "Rua C", BackgroundColor := "#ffffff", TextColor := "#000000" }⟩ ∧
    (⟨1700000200000000000⟩ : Time) ≠ exEventoBody.Data ∧
    "#ffffff" ≠ exEventoBody.BackgroundColor ∧
    "#000000" ≠ exEventoBody.TextColor) ∧
    (strLen exEventoBodyBig.Descricao > maxBsonObjectSize ∧
    (∃ d ∈ exStoreOne.eventos, d._id = 1) ∧
    (∀ d ∈ exStoreOne.eventos, d._id ≠ 2) ∧
    updateEventoHandler exStoreOne "000000000000000000000001" (some exEventoBodyBig) =
      (⟨500, Body.storeError StoreError.documentTooLarge⟩, exStoreOne) ∧
    updateEventoHandler exStoreOne "000000000000000000000002" (some exEventoBodyBig) =
      (⟨500, Body.storeError StoreError.documentTooLarge⟩, exStoreOne)) := by
  have hsize : strLen exEventoBodyBig.Descricao = 17000000 := exBigString_strLen
  have hmax : maxBsonObjectSize = 16777216 := rfl
  have hbig : updateStatementSize (setEventoElements exEventoBodyBig) > maxBsonObjectSize := by
    have h := descricao_le_statement exEventoBodyBig
    rw [hsize] at h
    omega
  refine ⟨by decide, ?_, by decide, by decide,
    updateEvento_refused exStoreOne "000000000000000000000001" 1 exEventoBodyBig (by decide) hbig,
    updateEvento_refused exStoreOne "000000000000000000000002" 2 exEventoBodyBig (by decide) hbig⟩
  rw [hsize, hmax]
  decide

/-- C9, amended: for a well-formed identifier and a body whose update the store
accepts (the statement, and the matched document once updated, within
`maxBsonObjectSize`), event Update on an identifier of no stored event answers
404 and leaves the store as it was; on an identifier of a stored event it
answers 200, keeps every stored identifier, and a Get on that identifier
afterwards answers 200 with the event Update returned, whose identifier is the
addressed one (whatever identifier the body carries), whose name, description
and address are the body's and whose date is the body's rounded down to whole
milliseconds. -/
theorem updateEvento_then_get (st : Store) (idParam : String) (objID : ObjectID) (body : Evento)
    (hparse : ObjectIDFromHex idParam = some objID)
    (hstmt : updateStatementSize (setEventoElements body) ≤ maxBsonObjectSize)
    (hres : ∀ x, FindOne st.eventos (fun d => d._id == objID) = some x →
      (setEvento body x).bsonSize ≤ maxBsonObjectSize) :
    ((∀ d ∈ st.eventos, d._id ≠ objID) →
      (updateEventoHandler st idParam (some body)).1.status = 404 ∧
      (updateEventoHandler st idParam (some body)).2 = st) ∧
    ((∃ d ∈ st.eventos, d._id = objID) →
      ∃ e, (updateEventoHandler st idParam (some body)).1 = ⟨200, Body.evento e⟩ ∧
        (getEventoHandler (updateEventoHandler st idParam (some body)).2 idParam).1
          = ⟨200, Body.evento e⟩ ∧
        e.ID = objID ∧ e.Nome = body.Nome ∧ e.Descricao = body.Descricao ∧
        e.Data = ⟨body.Data.unixNano.fdiv 1000000 * 1000000⟩ ∧
        e.Endereco = body.Endereco ∧
        (updateEventoHandler st idParam (some body)).2.eventos.map (fun d => d._id)
          = st.eventos.map (fun d => d._id) ∧
        (updateEventoHandler st idParam (some body)).2.participantes = st.participantes) := by
  have herr := UpdateOneErr_none (updateStatementSize (setEventoElements body))
    EventoDoc.bsonSize (fun d => d._id == objID) (setEvento body) st.eventos hstmt hres
  constructor
  · intro hno
    have hnm : ∀ d ∈ st.eventos, (fun d : EventoDoc => d._id == objID) d = false := by
      intro d hd
      simpa using hno d hd
    have hu := UpdateOne_no_match (fun d : EventoDoc => d._id == objID) (setEvento body)
      st.eventos hnm
    simp [updateEventoHandler, hparse, herr, hu]
  · rintro ⟨d, hd, hdid⟩
    obtain ⟨x, hx⟩ := FindOne_isSome_of_mem st.eventos (fun d => d._id == objID) d hd
      (by simp [hdid])
    have hxid : x._id = objID := by
      simpa using (FindOne_some_mem _ _ _ hx).2
    have hz : (UpdateOne (fun d : EventoDoc => d._id == objID) (setEvento body) st.eventos).1
        ≠ 0 := by
      intro h0
      have := UpdateOne_matched_zero _ _ _ h0 d hd
      simp [hdid] at this
    have hfind := FindOne_UpdateOne (fun d : EventoDoc => d._id == objID) (setEvento body)
      (fun _ => rfl) st.eventos
    rw [hx] at hfind
    simp only [Option.map_some'] at hfind
    have hmap := UpdateOne_map (fun d : EventoDoc => d._id == objID) (setEvento body)
      (fun d => d._id) (fun _ => rfl) st.eventos
    have hupd : updateEventoHandler st idParam (some body) =
        (⟨200, Body.evento (setEvento body x).decode⟩,
         { st with eventos :=
            (UpdateOne (fun d : EventoDoc => d._id == objID) (setEvento body) st.eventos).2 }) := by
      simp only [updateEventoHandler, hparse, herr, hz, if_false, hfind]
    refine ⟨(setEvento body x).decode, by rw [hupd], ?_, hxid, rfl, rfl, rfl, rfl, ?_, ?_⟩
    · rw [hupd]
      simp only [getEventoHandler, hparse, hfind]
    · rw [hupd]
      exact hmap
    · rw [hupd]

/-- An update addressed to identifier 2: 404 on the store without event 2, 200 on
the store with it, and Get returns the event Update returned. -/
theorem updateEvento_then_get_witness :
    ObjectIDFromHex "000000000000000000000002" = some 2 ∧
    updateStatementSize (setEventoElements exEventoBody) ≤ maxBsonObjectSize ∧
    (∀ x, FindOne exStoreTwo.eventos (fun d => d._id == 2) = some x →
      (setEvento exEventoBody x).bsonSize ≤ maxBsonObjectSize) ∧
    (∃ d ∈ exStoreTwo.eventos, d._id = 2) ∧
    (∀ d ∈ exStoreOne.eventos, d._id ≠ 2) ∧
    ((updateEventoHandler exStoreOne "000000000000000000000002" (some exEventoBody)).1.status
        = 404 ∧
      (updateEventoHandler exStoreOne "000000000000000000000002" (some exEventoBody)).2
        = exStoreOne) ∧
    ∃ e, (updateEventoHandler exStoreTwo "000000000000000000000002" (some exEventoBody)).1
          = ⟨200, Body.evento e⟩ ∧
      (getEventoHandler
        (updateEventoHandler exStoreTwo "000000000000000000000002" (some exEventoBody)).2
        "000000000000000000000002").1 = ⟨200, Body.evento e⟩ ∧
      e.ID = 2 ∧ e.Nome = exEventoBody.Nome ∧ e.Descricao = exEventoBody.Descricao ∧
      e.Data = ⟨exEventoBody.Data.unixNano.fdiv 1000000 * 1000000⟩ ∧
      e.Endereco = exEventoBody.Endereco ∧
      (updateEventoHandler exStoreTwo "000000000000000000000002"
          (some exEventoBody)).2.eventos.map (fun d => d._id)
        = exStoreTwo.eventos.map (fun d => d._id) ∧
      (updateEventoHandler exStoreTwo "000000000000000000000002"
          (some exEventoBody)).2.participantes = exStoreTwo.participantes :=
  ⟨by decide, by decide,
   fun x hx => by
    have hx2 : x = exEvento2 := by
      have h : FindOne exStoreTwo.eventos (fun d => d._id == 2) = some exEvento2 := by decide
      rw [h] at hx
      exact (Option.some.inj hx).symm
    rw [hx2]
    decide,
   by decide, by decide,
   (updateEvento_then_get exStoreOne "000000000000000000000002" 2 exEventoBody (by decide)
     (by decide) (fun x hx => by
      have h : FindOne exStoreOne.eventos (fun d => d._id == 2) = none := by decide
      rw [h] at hx
      cases hx)).1 (by decide),
   (updateEvento_then_get exStoreTwo "000000000000000000000002" 2 exEventoBody (by decide)
     (by decide) (fun x hx => by
      have hx2 : x = exEvento2 := by
        have h : FindOne exStoreTwo.eventos (fun d => d._id == 2) = some exEvento2 := by decide
        rw [h] at hx
        exact (Option.some.inj hx).symm
      rw [hx2]
      decide)).2 (by decide)⟩

/-- The colours after an update: the `$set` writes the keys `background_color`
and `text_color`, the struct reads `backgroundcolor` and `textcolor`, so an
update the store accepts leaves the colours Get returns as they were stored
before, whatever the body carries. -/
theorem updateEvento_colors_as_before (st : Store) (idParam : String) (objID : ObjectID)
    (body : Evento) (x : EventoDoc) (hparse : ObjectIDFromHex idParam = some objID)
    (hx : FindOne st.eventos (fun d => d._id == objID) = some x)
    (hstmt : updateStatementSize (setEventoElements body) ≤ maxBsonObjectSize)
    (hres : (setEvento body x).bsonSize ≤ maxBsonObjectSize) :
    (getEventoHandler (updateEventoHandler st idParam (some body)).2 idParam).1 =
      ⟨200, Body.evento
        { ID := x._id, Nome := body.Nome, Descricao := body.Descricao,
          Data := ⟨body.Data.unixNano.fdiv 1000000 * 1000000⟩, Endereco := body.Endereco,
          BackgroundColor := x.backgroundcolor, TextColor := x.textcolor }⟩ := by
  have herr := UpdateOneErr_none (updateStatementSize (setEventoElements body))
    EventoDoc.bsonSize (fun d => d._id == objID) (setEvento body) st.eventos hstmt
    (fun d hd => by
      rw [hx] at hd
      rw [← Option.some.inj hd]
      exact hres)
  have hfind := FindOne_UpdateOne (fun d : EventoDoc => d._id == objID) (setEvento body)
    (fun _ => rfl) st.eventos
  rw [hx] at hfind
  simp only [Option.map_some'] at hfind
  have hstore : (updateEventoHandler st idParam (some body)).2.eventos =
      (UpdateOne (fun d : EventoDoc => d._id == objID) (setEvento body) st.eventos).2 := by
    simp only [updateEventoHandler, hparse, herr]
    split <;> simp only [hfind]
  simp only [getEventoHandler, hparse, hstore, hfind]
  rfl

/-- `DeleteOne` removes as many documents as it counts. -/
theorem DeleteOne_length {α : Type} (f : α → Bool) (c : List α) :
    (DeleteOne f c).2.length + (DeleteOne f c).1 = c.length := by
  induction c with
  | nil => rfl
  | cons d ds ih =>
    unfold DeleteOne
    by_cases h : f d = true
    · simp [h]
    · have h2 : f d = false := by simpa using h
      simp only [h2, Bool.false_eq_true, if_false, List.length_cons]
      omega

/-- With `_id` unique, deleting by `_id` leaves exactly the documents with
another `_id`, in order. -/
theorem DeleteOne_by_id (c : List EventoDoc) (k : ObjectID)
    (hnd : (c.map (fun d => d._id)).Nodup) :
    (DeleteOne (fun d => d._id == k) c).2 = c.filter (fun d => d._id != k) := by
  induction c with
  | nil => rfl
  | cons x xs ih =>
    have hnd2 : x._id ∉ xs.map (fun d => d._id) ∧ (xs.map (fun d => d._id)).Nodup := by
      simpa using hnd
    unfold DeleteOne
    by_cases hx : x._id = k
    · have hall : ∀ d ∈ xs, (d._id != k) = true := by
        intro d hd
        have hne : d._id ≠ k := by
          intro hdk
          apply hnd2.1
          rw [hx, ← hdk]
          exact List.mem_map.mpr ⟨d, hd, rfl⟩
        simpa using hne
      have hfil : xs.filter (fun d => d._id != k) = xs := List.filter_eq_self.mpr hall
      simp [hx, hfil]
    · have hb : (x._id == k) = false := by simpa using hx
      simp [hb, hx, ih hnd2.2]

/-- C10: on a store that keeps `_id` unique, for a well-formed identifier of a
stored event, Delete answers 204
and removes exactly that document (the events left are the stored ones with
another identifier, in order, one fewer than before), the participants, their
event lists included, are as they were, a Get on the same identifier afterwards
answers 404, and a second Delete on it answers 404 and changes nothing. -/
theorem deleteEvento_then_get (st : Store) (idParam : String) (objID : ObjectID)
    (hwf : st.WF) (hparse : ObjectIDFromHex idParam = some objID)
    (hex : ∃ d ∈ st.eventos, d._id = objID) :
    (deleteEventoHandler st idParam).1 = ⟨204, Body.empty⟩ ∧
    (deleteEventoHandler st idParam).2.eventos = st.eventos.filter (fun d => d._id != objID) ∧
    (deleteEventoHandler st idParam).2.eventos.length + 1 = st.eventos.length ∧
    (deleteEventoHandler st idParam).2.participantes = st.participantes ∧
    (getEventoHandler (deleteEventoHandler st idParam).2 idParam).1.status = 404 ∧
    (deleteEventoHandler (deleteEventoHandler st idParam).2 idParam).1.status = 404 ∧
    (deleteEventoHandler (deleteEventoHandler st idParam).2 idParam).2
      = (deleteEventoHandler st idParam).2 := by
  obtain ⟨d, hd, hdid⟩ := hex
  have hone : (DeleteOne (fun d : EventoDoc => d._id == objID) st.eventos).1 = 1 :=
    DeleteOne_match _ _ d hd (by simp [hdid])
  have hrest := DeleteOne_by_id st.eventos objID hwf.1
  have hlen := DeleteOne_length (fun d : EventoDoc => d._id == objID) st.eventos
  have hdel : deleteEventoHandler st idParam =
      (⟨204, Body.empty⟩,
       { st with eventos := st.eventos.filter (fun d => d._id != objID) }) := by
    simp only [deleteEventoHandler, hparse, hone, hrest]
    rfl
  have hgone : ∀ x ∈ st.eventos.filter (fun d => d._id != objID),
      (fun d : EventoDoc => d._id == objID) x = false := by
    intro x hx
    have := (List.mem_filter.mp hx).2
    simpa using this
  have hnone : FindOne (st.eventos.filter (fun d => d._id != objID))
      (fun d => d._id == objID) = none := (FindOne_none _ _).mpr hgone
  have hdel2 := DeleteOne_no_match (fun d : EventoDoc => d._id == objID) _ hgone
  rw [hdel]
  refine ⟨rfl, rfl, ?_, rfl, ?_, ?_, ?_⟩
  · rw [hone, hrest] at hlen
    exact hlen
  · simp [getEventoHandler, hparse, hnone]
  · simp [deleteEventoHandler, hparse, hdel2]
  · simp [deleteEventoHandler, hparse, hdel2]

/-- Event 1 deleted from the sample store with two events. -/
theorem deleteEvento_then_get_witness :
    exStoreTwo.WF ∧ ObjectIDFromHex "000000000000000000000001" = some 1 ∧
    (deleteEventoHandler exStoreTwo "000000000000000000000001").2
      = { eventos := [exEvento2], participantes := [exParticipanteDoc] } ∧
    ((deleteEventoHandler exStoreTwo "000000000000000000000001").1 = ⟨204, Body.empty⟩ ∧
    (deleteEventoHandler exStoreTwo "000000000000000000000001").2.eventos
      = exStoreTwo.eventos.filter (fun d => d._id != 1) ∧
    (deleteEventoHandler exStoreTwo "000000000000000000000001").2.eventos.length + 1
      = exStoreTwo.eventos.length ∧
    (deleteEventoHandler exStoreTwo "000000000000000000000001").2.participantes
      = exStoreTwo.participantes ∧
    (getEventoHandler (deleteEventoHandler exStoreTwo "000000000000000000000001").2
      "000000000000000000000001").1.status = 404 ∧
    (deleteEventoHandler (deleteEventoHandler exStoreTwo "000000000000000000000001").2
      "000000000000000000000001").1.status = 404 ∧
    (deleteEventoHandler (deleteEventoHandler exStoreTwo "000000000000000000000001").2
      "000000000000000000000001").2
      = (deleteEventoHandler exStoreTwo "000000000000000000000001").2) :=
  ⟨by simp [Store.WF, exStoreTwo, exEvento1, exEvento2], by decide, by decide,
   deleteEvento_then_get exStoreTwo "000000000000000000000001" 1
     (by simp [Store.WF, exStoreTwo, exEvento1, exEvento2]) (by decide) (by decide)⟩

/-! ## Identifiers in hexadecimal -/

theorem fromHexChar_hexDigit (d : Nat) (h : d < 16) : fromHexChar (hexDigit d) = some d := by
  interval_cases d <;> decide

theorem hexDecode_append (l1 l2 : List Char) (acc : Nat) :
    hexDecode (l1 ++ l2) acc = (hexDecode l1 acc).bind (hexDecode l2) := by
  induction l1 generalizing acc with
  | nil => rfl
  | cons c cs ih =>
    simp only [List.cons_append, hexDecode]
    cases fromHexChar c with
    | none => rfl
    | some d => exact ih _

theorem hexEncode_length (n v : Nat) : (hexEncode n v).length = n := by
  induction n generalizing v with
  | zero => rfl
  | succ k ih => simp [hexEncode, ih]

theorem hexDecode_hexEncode (n v acc : Nat) :
    hexDecode (hexEncode n v) acc = some (acc * 16 ^ n + v % 16 ^ n) := by
  induction n generalizing v acc with
  | zero => simp [hexEncode, hexDecode, Nat.mod_one]
  | succ k ih =>
    have hd : fromHexChar (hexDigit (v % 16)) = some (v % 16) :=
      fromHexChar_hexDigit _ (Nat.mod_lt _ (by decide))
    simp only [hexEncode, hexDecode_append, ih, Option.some_bind, hexDecode, hd]
    congr 1
    rw [Nat.pow_succ', Nat.mod_mul]
    ring

/-- Every twelve-byte identifier has a well-formed path parameter: its `Hex`
form parses back to it. -/
theorem ObjectIDFromHex_Hex (id : ObjectID) (h : id < 2 ^ 96) :
    ObjectIDFromHex id.Hex = some id := by
  have h16 : id % 16 ^ 24 = id := by
    apply Nat.mod_eq_of_lt
    calc id < 2 ^ 96 := h
      _ = 16 ^ 24 := by norm_num
  have hl : (String.mk (hexEncode 24 id)).toList = hexEncode 24 id := rfl
  unfold ObjectIDFromHex ObjectID.Hex
  rw [hl, hexEncode_length, hexDecode_hexEncode, h16]
  simp

/-- A parsed path parameter is a twelve-byte identifier. -/
theorem hexDecode_lt (l : List Char) (acc v : Nat) (h : hexDecode l acc = some v) :
    v < (acc + 1) * 16 ^ l.length := by
  induction l generalizing acc with
  | nil =>
    simp [hexDecode] at h
    subst h
    simp
  | cons c cs ih =>
    simp only [hexDecode] at h
    cases hc : fromHexChar c with
    | none => rw [hc] at h; cases h
    | some d =>
      rw [hc] at h
      have hd : d < 16 := by
        unfold fromHexChar at hc
        split at hc
        · simp only [Option.some.injEq] at hc
          have : c.toNat ≤ '9'.toNat := by tauto
          have h9 : '9'.toNat = 57 := by decide
          have h0 : '0'.toNat = 48 := by decide
          omega
        · split at hc
          · simp only [Option.some.injEq] at hc
            have : c.toNat ≤ 'f'.toNat := by tauto
            have h9 : 'f'.toNat = 102 := by decide
            have h0 : 'a'.toNat = 97 := by decide
            omega
          · split at hc
            · simp only [Option.some.injEq] at hc
              have : c.toNat ≤ 'F'.toNat := by tauto
              have h9 : 'F'.toNat = 70 := by decide
              have h0 : 'A'.toNat = 65 := by decide
              omega
            · cases hc
      have := ih _ h
      calc v < (acc * 16 + d + 1) * 16 ^ cs.length := this
        _ ≤ ((acc + 1) * 16) * 16 ^ cs.length := Nat.mul_le_mul_right _ (by omega)
        _ = (acc + 1) * 16 ^ (c :: cs).length := by
          rw [List.length_cons, Nat.pow_succ]
          ring

theorem ObjectIDFromHex_lt (s : String) (id : ObjectID) (h : ObjectIDFromHex s = some id) :
    id < 2 ^ 96 := by
  unfold ObjectIDFromHex at h
  split at h
  · cases h
  · rename_i hlen
    have hl : s.toList.length = 24 := by simpa using hlen
    have := hexDecode_lt _ _ _ h
    rw [hl] at this
    have h2 : (16 : Nat) ^ 24 = 2 ^ 96 := by norm_num
    rw [← h2]
    simpa using this

/-! ## The store invariant -/

theorem DeleteOne_sublist {α : Type} (f : α → Bool) (c : List α) :
    List.Sublist (DeleteOne f c).2 c := by
  induction c with
  | nil => exact List.Sublist.refl _
  | cons d ds ih =>
    unfold DeleteOne
    by_cases h : f d = true
    · simp [h]
    · have h2 : f d = false := by simpa using h
      simp only [h2, Bool.false_eq_true, if_false]
      exact List.Sublist.cons₂ d ih

theorem linkFields_ids (st : Store) (novo ex : Participante) :
    (linkFields st novo ex).2.participantes.map (fun d => d._id)
      = st.participantes.map (fun d => d._id) ∧
    (linkFields st novo ex).2.eventos = st.eventos := by
  have ids : (UpdateOne (fun d => d._id == ex.ID) (setUpdateFields (updateFieldsOf novo))
      st.participantes).2.map (fun d => d._id) = st.participantes.map (fun d => d._id) :=
    UpdateOne_map (fun d => d._id == ex.ID) (setUpdateFields (updateFieldsOf novo))
      (fun d => d._id) (fun _ => rfl) st.participantes
  unfold linkFields
  dsimp only
  split
  · split
    · exact ⟨rfl, rfl⟩
    · exact ⟨ids, rfl⟩
  · exact ⟨rfl, rfl⟩

theorem linkExisting_ids (st : Store) (novo : Participante) (e : ObjectID)
    (doc : ParticipanteDoc) :
    (linkExisting st novo e doc).2.participantes.map (fun d => d._id)
      = st.participantes.map (fun d => d._id) ∧
    (linkExisting st novo e doc).2.eventos = st.eventos := by
  have ids : ∀ (k : ObjectID) (l : List ObjectID),
      (UpdateOne (fun d => d._id == k)
        (fun d => { d with eventos_participados := l }) st.participantes).2.map (fun d => d._id)
        = st.participantes.map (fun d => d._id) :=
    fun k l => UpdateOne_map (fun d => d._id == k)
      (fun d => { d with eventos_participados := l }) (fun d => d._id) (fun _ => rfl)
      st.participantes
  unfold linkExisting
  dsimp only
  split
  · split
    · exact ⟨rfl, rfl⟩
    · refine ⟨?_, ?_⟩
      · rw [(linkFields_ids _ _ _).1]
        exact ids _ _
      · rw [(linkFields_ids _ _ _).2]
  · exact linkFields_ids _ _ _

/-- The empty store satisfies the invariant. -/
theorem WF_empty : exStoreEmpty.WF := by
  simp [Store.WF, exStoreEmpty]

/-- Every handler that writes keeps `_id` unique in both collections, also when
the store refuses the write. -/
theorem WF_preserved (st : Store) (hwf : st.WF) (idParam : String) (ev : Option Evento)
    (pt : Option Participante) (gen : ObjectID) :
    (createEventoHandler st ev gen).2.WF ∧
    (updateEventoHandler st idParam ev).2.WF ∧
    (deleteEventoHandler st idParam).2.WF ∧
    (createParticipanteHandler st pt gen).2.WF ∧
    (updateParticipanteHandler st idParam pt).2.WF ∧
    (deleteParticipanteHandler st idParam).2.WF := by
  obtain ⟨he, hp⟩ := hwf
  have happ : ∀ (ids : List ObjectID) (k : ObjectID), ids.Nodup → k ∉ ids →
      (ids ++ [k]).Nodup := by
    intro ids k hnd hk
    rw [List.nodup_append]
    refine ⟨hnd, List.nodup_singleton _, ?_⟩
    intro a ha hb
    rw [List.mem_singleton] at hb
    exact hk (hb ▸ ha)
  unfold Store.WF
  refine ⟨?_, ?_, ?_, ?_, ?_, ?_⟩
  · cases ev with
    | none => exact ⟨he, hp⟩
    | some e =>
      rcases InsertOneEvento_cases st.eventos e gen with ⟨err, herr⟩ | ⟨hok, hno, _⟩
      · simp only [createEventoHandler, herr]
        exact ⟨he, hp⟩
      · have hnot : insertedID e.ID gen ∉ st.eventos.map (fun d => d._id) := by
          intro hin
          obtain ⟨d, hd, hdid⟩ := List.mem_map.mp hin
          exact hno d hd hdid
        simp only [createEventoHandler, hok, List.map_append, List.map_cons, List.map_nil,
          Evento.toDoc]
        exact ⟨happ _ _ he hnot, hp⟩
  · unfold updateEventoHandler
    have hmap : ∀ b k, (UpdateOne (fun d : EventoDoc => d._id == k) (setEvento b)
        st.eventos).2.map (fun d => d._id) = st.eventos.map (fun d => d._id) :=
      fun b k => UpdateOne_map _ (setEvento b) (fun d => d._id) (fun _ => rfl) st.eventos
    cases ObjectIDFromHex idParam with
    | none => exact ⟨he, hp⟩
    | some k =>
      cases ev with
      | none => exact ⟨he, hp⟩
      | some b =>
        dsimp only
        split
        · exact ⟨he, hp⟩
        · split
          · exact ⟨by rw [hmap]; exact he, hp⟩
          · split <;> exact ⟨by rw [hmap]; exact he, hp⟩
  · unfold deleteEventoHandler
    cases ObjectIDFromHex idParam with
    | none => exact ⟨he, hp⟩
    | some k =>
      have hsub := List.Sublist.map (fun d : EventoDoc => d._id)
        (DeleteOne_sublist (fun d : EventoDoc => d._id == k) st.eventos)
      dsimp only
      split <;> exact ⟨List.Nodup.sublist hsub he, hp⟩
  · cases pt with
    | none => exact ⟨he, hp⟩
    | some p =>
      cases hl : FindOneLatest st.eventos with
      | none =>
        simp only [createParticipanteHandler, hl]
        exact ⟨he, hp⟩
      | some latest =>
        cases hf : FindOne st.participantes (fun d => d.email == p.Email) with
        | some doc =>
          obtain ⟨h1, h2⟩ := linkExisting_ids st p latest._id doc
          rw [createParticipante_found st p gen latest doc hl hf, h1, h2]
          exact ⟨he, hp⟩
        | none =>
          rcases InsertOneParticipante_cases st.participantes
            { p with EventosParticipados := [latest.decode.ID] } gen with
            ⟨err, herr⟩ | ⟨hok, hno, _⟩
          · simp only [createParticipanteHandler, hl, hf, herr]
            exact ⟨he, hp⟩
          · have hnot : insertedID p.ID gen ∉ st.participantes.map (fun d => d._id) := by
              intro hin
              obtain ⟨d, hd, hdid⟩ := List.mem_map.mp hin
              exact hno d hd hdid
            simp only [createParticipanteHandler, hl, hf, hok, List.map_append, List.map_cons,
              List.map_nil, Participante.toDoc]
            exact ⟨he, happ _ _ hp hnot⟩
  · unfold updateParticipanteHandler
    have hmap : ∀ b k, (UpdateOne (fun d : ParticipanteDoc => d._id == k) (setParticipante b)
        st.participantes).2.map (fun d => d._id) = st.participantes.map (fun d => d._id) :=
      fun b k => UpdateOne_map _ (setParticipante b) (fun d => d._id) (fun _ => rfl)
        st.participantes
    cases ObjectIDFromHex idParam with
    | none => exact ⟨he, hp⟩
    | some k =>
      cases pt with
      | none => exact ⟨he, hp⟩
      | some b =>
        dsimp only
        split
        · exact ⟨he, hp⟩
        · split
          · exact ⟨he, by rw [hmap]; exact hp⟩
          · split <;> exact ⟨he, by rw [hmap]; exact hp⟩
  · unfold deleteParticipanteHandler
    cases ObjectIDFromHex idParam with
    | none => exact ⟨he, hp⟩
    | some k =>
      have hsub := List.Sublist.map (fun d : ParticipanteDoc => d._id)
        (DeleteOne_sublist (fun d : ParticipanteDoc => d._id == k) st.participantes)
      dsimp only
      split <;> exact ⟨he, List.Nodup.sublist hsub hp⟩

/-! ## The identifier of a created event -/

/-- Create answers 201 exactly when the store accepts the document: the
identifier the event is inserted under is not a stored event's and the document
is within the limit; the only other answer to a decoded payload is 500. -/
theorem createEvento_201_iff (st : Store) (p : Evento) (gen : ObjectID) :
    ((createEventoHandler st (some p) gen).1.status = 201 ↔
      (∀ d ∈ st.eventos, d._id ≠ insertedID p.ID gen) ∧
      (p.toDoc (insertedID p.ID gen)).bsonSize ≤ maxBsonObjectSize) ∧
    ((createEventoHandler st (some p) gen).1.status = 201 ∨
      (createEventoHandler st (some p) gen).1.status = 500) := by
  rcases InsertOneEvento_cases st.eventos p gen with ⟨err, herr⟩ | ⟨hok, hno, hfit⟩
  · have hst : (createEventoHandler st (some p) gen).1.status = 500 := by
      simp only [createEventoHandler, herr]
    rw [hst]
    refine ⟨⟨fun h => absurd h (by decide), ?_⟩, Or.inr rfl⟩
    rintro ⟨hno, hfit⟩
    exfalso
    have hany : (st.eventos.any (fun d => d._id == insertedID p.ID gen)) = false := by
      rw [List.any_eq_false]
      intro d hd
      simpa using hno d hd
    simp [InsertOneEvento, Nat.not_lt.mpr hfit, hany] at herr
  · have hst : (createEventoHandler st (some p) gen).1.status = 201 := by
      simp only [createEventoHandler, hok]
    rw [hst]
    exact ⟨⟨fun _ => ⟨hno, hfit⟩, fun _ => rfl⟩, Or.inl rfl⟩

/-- What a successful Create persists and answers: one document is appended,
under the identifier `insertedID p.ID gen`; the 201 response is the payload
with that identifier, and the document appended is the encoding of the event
in the response under the identifier in the response. -/
theorem createEvento_success (st : Store) (p : Evento) (gen : ObjectID)
    (hok : (createEventoHandler st (some p) gen).1.status = 201) :
    ∃ e, (createEventoHandler st (some p) gen).1 = ⟨201, Body.evento e⟩ ∧
      e = { p with ID := insertedID p.ID gen } ∧
      (createEventoHandler st (some p) gen).2.eventos = st.eventos ++ [e.toDoc e.ID] ∧
      (e.toDoc e.ID)._id = insertedID p.ID gen ∧
      (createEventoHandler st (some p) gen).2.participantes = st.participantes := by
  rcases InsertOneEvento_cases st.eventos p gen with ⟨err, herr⟩ | ⟨hins, _, _⟩
  · exfalso
    simp [createEventoHandler, herr] at hok
  · refine ⟨{ p with ID := insertedID p.ID gen }, ?_, rfl, ?_, rfl, ?_⟩ <;>
      simp [createEventoHandler, hins, Evento.toDoc]

/-- A payload without an identifier is persisted under the generated one. -/
theorem createEvento_id_generated (p : Evento) (gen : ObjectID)
    (hzero : p.ID = 0) : insertedID p.ID gen = gen := by
  simp [insertedID, ObjectID.IsZero, hzero]

/-- A payload with an identifier is persisted under that identifier, whatever
the driver would have generated. -/
theorem createEvento_id_from_payload (st : Store) (p : Evento) (gen : ObjectID)
    (hid : p.ID ≠ 0) (hok : (createEventoHandler st (some p) gen).1.status = 201) :
    (createEventoHandler st (some p) gen).1 = ⟨201, Body.evento p⟩ ∧
    (createEventoHandler st (some p) gen).2.eventos = st.eventos ++ [p.toDoc p.ID] := by
  have hins : insertedID p.ID gen = p.ID := by
    simp [insertedID, ObjectID.IsZero, hid]
  obtain ⟨e, h1, he, h2, _, _⟩ := createEvento_success st p gen hok
  rw [hins] at he
  subst he
  exact ⟨h1, h2⟩

/-- C11 on the code: Create on the empty store with a payload that carries the
identifier 9, when the driver would generate 1, succeeds with 201; the event
persisted and the event in the response carry the identifier 9, the payload's,
not the generated one: Get finds the event under 9 and nothing under 1. -/
theorem created_event_keeps_payload_id :
    (createEventoHandler exStoreEmpty (some exEventoPayloadWithID) 1).1 =
      ⟨201, Body.evento exEventoPayloadWithID⟩ ∧
    ((createEventoHandler exStoreEmpty (some exEventoPayloadWithID) 1).2.eventos.map
      (fun d => d._id)) = [exEventoPayloadWithID.ID] ∧
    exEventoPayloadWithID.ID = 9 ∧ exEventoPayloadWithID.ID ≠ 1 ∧
    (getEventoHandler (createEventoHandler exStoreEmpty (some exEventoPayloadWithID) 1).2
      "000000000000000000000009").1 = ⟨200, Body.evento exEventoPayloadWithID⟩ ∧
    (getEventoHandler (createEventoHandler exStoreEmpty (some exEventoPayloadWithID) 1).2
      "000000000000000000000001").1.status = 404 := by
  decide

end CredGenerator
